import Mathlib

/-!
Verification of the deterministic ERD grading engine of `src/server.js`
(`calculateGrades` and its helpers `areStringsSemanticallySimilar`,
`getLevenshteinDistance`, `filterElementsByContext`), together with a model
of the `/autograde-erd` request handler's validation and error path.

Modelling conventions:
* JavaScript numbers are modelled as exact rationals (`ℚ`); `toFixed(2)`
  followed by `parseFloat` is modelled as exact decimal rounding to two
  places with ties rounded up (`round2`).  The `NaN` that `parseFloat`
  produces on an all-dots formula factor is not representable in `ℚ`;
  theorems that depend on the multiplier therefore assume the factor
  parses (`formulaSafe`).
* JavaScript strings are `String`; a missing (`undefined`) field is the
  empty string, which is falsy exactly like `undefined` in every `x || d`
  fallback the grader performs on these fields.
* `Char.toLower` lowercases ASCII letters, matching `toLowerCase` on the
  ASCII names the grader handles.
-/

namespace ErdGrader

/-- `true` for the characters the cleaning step keeps:
`replace(/[^a-z0-9]/g, '')` applied after `toLowerCase()`. -/
def isKeptChar (c : Char) : Bool :=
  (decide ('a' ≤ c) && decide (c ≤ 'z')) || (decide ('0' ≤ c) && decide (c ≤ '9'))

/-- `str.trim().toLowerCase().replace(/[^a-z0-9]/g, '')` from
`areStringsSemanticallySimilar`.  The `trim()` is omitted: the whitespace it
would strip is removed by the `[^a-z0-9]` filter anyway. -/
def cleanName (s : String) : List Char :=
  (s.data.map Char.toLower).filter isKeptChar

/-- `hay.includes(sub)` on JavaScript strings: contiguous substring test. -/
def strIncludes (hay sub : List Char) : Bool :=
  sub.isPrefixOf hay ||
    match hay with
    | [] => false
    | _ :: t => strIncludes t sub

/-- `s.includes(sub)` lifted to `String`. -/
def containsStr (s sub : String) : Bool :=
  strIncludes s.data sub.data

/-- whitespace characters of the JavaScript `\s` class that can occur in
element names (the word-bag split `/[\s_]+/` also splits on `_`). -/
def isWordSep (c : Char) : Bool :=
  c = ' ' || c = '_' || c = '\t' || c = '\n' || c = '\r'

/-- Splitting on every single separator character.  `acc` is the current
token, reversed. -/
def splitSepAux : List Char → List Char → List (List Char)
  | [], acc => [acc.reverse]
  | c :: cs, acc =>
    if isWordSep c then acc.reverse :: splitSepAux cs []
    else splitSepAux cs (c :: acc)

/-- `str.split(/[\s_]+/)`, up to empty tokens: the JavaScript split
collapses separator runs, this one emits an empty token per extra
separator.  `wordBag` (the only consumer) sorts the tokens and joins them
with `''`, where empty tokens are absorbed, so the two agree there. -/
def splitWords (s : List Char) : List (List Char) :=
  splitSepAux s []

/-- Lexicographic comparison of UTF code points: the order the default
`Array.prototype.sort()` comparator uses on strings. -/
def wordLe (a b : List Char) : Bool :=
  match a, b with
  | [], _ => true
  | _ :: _, [] => false
  | x :: xs, y :: ys => if x = y then wordLe xs ys else decide (x < y)

/-- insertion step of sorting the token array. -/
def insertWord (w : List Char) (l : List (List Char)) : List (List Char) :=
  match l with
  | [] => [w]
  | v :: vs => if wordLe w v then w :: v :: vs else v :: insertWord w vs

/-- `tokens.sort()` with the default string comparator. -/
def sortWords (l : List (List Char)) : List (List Char) :=
  match l with
  | [] => []
  | w :: ws => insertWord w (sortWords ws)

/-- `str.toLowerCase().split(/[\s_]+/).sort().join('')`: the word-bag
normal form used by rule 5 of the fuzzy matcher. -/
def wordBag (s : String) : List Char :=
  (sortWords (splitWords (s.data.map Char.toLower))).flatten

/-- `getLevenshteinDistance(a, b)` of `src/server.js`: the dynamic-
programming matrix built there computes exactly this standard edit-distance
recurrence. -/
def getLevenshteinDistance : List Char → List Char → Nat
  | [], b => b.length
  | a, [] => a.length
  | x :: xs, y :: ys =>
    if x = y then getLevenshteinDistance xs ys
    else 1 + min (getLevenshteinDistance xs ys)
          (min (getLevenshteinDistance (x :: xs) ys)
               (getLevenshteinDistance xs (y :: ys)))
termination_by a b => a.length + b.length
decreasing_by all_goals simp_arith

/-- `areStringsSemanticallySimilar(str1, str2)` of `src/server.js`.  The
early-`return true` chain is written as a disjunction; `s1.endsWith('ed')
&& s1.slice(0, -2) === s2` is written as the equivalent
`s1 = s2 ++ ['e', 'd']`. -/
def areStringsSemanticallySimilar (str1 str2 : String) : Bool :=
  if str1 = "" ∨ str2 = "" then false
  else
    let s1 := cleanName str1
    let s2 := cleanName str2
    decide (s1 = s2)
    || (strIncludes s1 s2 && decide (3 < s2.length))
    || (strIncludes s2 s1 && decide (3 < s1.length))
    || (decide (3 ≤ s1.length) && decide (3 ≤ s2.length) &&
        (decide (s1 = s2 ++ ['s']) || decide (s2 = s1 ++ ['s']) ||
         decide (s1 = s2 ++ ['e', 's']) || decide (s2 = s1 ++ ['e', 's']) ||
         decide (s1 = s2 ++ ['e', 'd']) || decide (s2 = s1 ++ ['e', 'd'])))
    || decide (wordBag str1 = wordBag str2)
    || (let len := max s1.length s2.length
        let allowedErrors := if 6 < len then 2 else if 3 < len then 1 else 0
        decide (0 < allowedErrors) &&
          decide (getLevenshteinDistance s1 s2 ≤ allowedErrors))

/-- A detected diagram element, as produced by the external detector and
consumed by `calculateGrades`.  A field an element kind does not carry
(`undefined` in JavaScript) is the empty string; `from` is a Lean keyword,
hence the field name `from_`. -/
structure Element where
  id : String := ""
  name : String := ""
  type : String := ""
  subType : String := ""
  from_ : String := ""
  to_ : String := ""
  cardinalityFrom : String := ""
  cardinalityTo : String := ""
  belongsTo : String := ""
  belongsToType : String := ""
  confidence : ℚ := 0
deriving DecidableEq

/-- One rubric criterion: `{ category, maxPoints, description }`. -/
structure Criterion where
  category : String
  maxPoints : ℚ
  description : String
deriving DecidableEq

/-- `rubricStructured`: `{ totalPoints, criteria }`. -/
structure Rubric where
  totalPoints : ℚ
  criteria : List Criterion
deriving DecidableEq

/-- One row of `result.breakdown`. -/
structure BreakdownRow where
  category : String
  earned : ℚ
  max : ℚ
  feedback : String
deriving DecidableEq

/-- One row of `result._debug`. -/
structure DebugRow where
  expectedCount : Nat
  correctCount : Nat
  multiplier : ℚ
  missing : List String
  incorrect : List String
deriving DecidableEq

/-- The grading result of `calculateGrades`.  The per-category maps are
kept as association lists in rubric order; JavaScript stores them in plain
objects, where a duplicated category name would overwrite the earlier
entry — rubric criteria have distinct names in every claim considered. -/
structure GradeResult where
  totalScore : ℚ
  maxScore : ℚ
  breakdown : List BreakdownRow
  correctElements : List (String × List String)
  missingElements : List (String × List String)
  incorrectElements : List (String × List String)
  debugInfo : List (String × DebugRow)
deriving DecidableEq

/-- The mutable state threaded through the `rubric.criteria.forEach` loop:
the result fields under construction plus `matchedStudentIds` and
`entityMap`. -/
structure GradeState where
  totalScore : ℚ
  breakdown : List BreakdownRow
  correctElements : List (String × List String)
  missingElements : List (String × List String)
  incorrectElements : List (String × List String)
  debugInfo : List (String × DebugRow)
  matchedStudentIds : List String
  entityMap : List (String × String)
deriving DecidableEq

/-- `s.toLowerCase()` (ASCII). -/
def lowerStr (s : String) : String :=
  String.mk (s.data.map Char.toLower)

/-- JavaScript `x || d` for these string fields: `x` is falsy exactly when
it is empty. -/
def orDefault (s d : String) : String :=
  if s = "" then d else s

/-- `entityMap[k] || k`.  The map is an association list with the newest
binding first, mirroring object-property overwrite. -/
def lookupOr (m : List (String × String)) (k : String) : String :=
  match m.find? (fun p => p.1 == k) with
  | some p => if p.2 = "" then k else p.2
  | none => k

/-- digit-string value: the semantics of `parseInt` on a `\d+` capture. -/
def natOfDigits (s : List Char) : Nat :=
  s.foldl (fun n c => 10 * n + (c.toNat - '0'.toNat)) 0

/-- `parseFloat` on a string drawn from `[\d.]+`: an integer part, then
optionally a dot and a fraction part (a second dot stops the parse).
`none` is the `NaN` case (no digit before or right after the first dot),
which `ℚ` cannot represent. -/
def parseFloatQ (s : List Char) : Option ℚ :=
  match s.dropWhile Char.isDigit with
  | '.' :: rest2 =>
    if s.takeWhile Char.isDigit = [] ∧ rest2.takeWhile Char.isDigit = [] then
      none
    else
      some ((natOfDigits (s.takeWhile Char.isDigit) : ℚ) +
        (natOfDigits (rest2.takeWhile Char.isDigit) : ℚ) /
          (10 ^ (rest2.takeWhile Char.isDigit).length))
  | _ =>
    if s.takeWhile Char.isDigit = [] then none
    else some ((natOfDigits (s.takeWhile Char.isDigit) : ℚ))

/-- `c` is a character of the class `[\d.]`. -/
def isDigitDot (c : Char) : Bool :=
  c.isDigit || c = '.'

/-- `c` is a character the `\s` of the formula regex can match here. -/
def isSpaceChar (c : Char) : Bool :=
  c = ' ' || c = '\t' || c = '\n' || c = '\r'

/-- `description.match(/([\d.]+)\s*x\s*(\d+)/)`: leftmost match, returning
the two capture groups.  Greedy matching needs no backtracking for this
pattern: after a maximal `[\d.]+` run and a maximal `\s*` run the next
character either is `x` or the whole attempt at this start position fails,
and the scan restarts one character further right. -/
def findFormula : List Char → Option (List Char × List Char)
  | [] => none
  | c :: cs =>
    if isDigitDot c then
      let g1 := (c :: cs).takeWhile isDigitDot
      let rest1 := (c :: cs).dropWhile isDigitDot
      let rest2 := rest1.dropWhile isSpaceChar
      match rest2 with
      | 'x' :: rest3 =>
        let rest4 := rest3.dropWhile isSpaceChar
        let g2 := rest4.takeWhile Char.isDigit
        if g2 = [] then findFormula cs else some (g1, g2)
      | _ => findFormula cs
    else findFormula cs

/-- `multiplier` right after the formula extraction: `parseFloat(match[1])`
when the regex matched, the initial `1` otherwise.  The unrepresentable
`NaN` of an all-dots factor is collapsed to `0`; theorems that depend on
the multiplier assume `formulaSafe` to stay out of that case. -/
def extractedMultiplier (description : String) : ℚ :=
  match findFormula description.data with
  | some (g1, _) => (parseFloatQ g1).getD 0
  | none => 1

/-- `expectedCount` right after the formula extraction:
`parseInt(match[2])` when the regex matched, the initial `0` otherwise. -/
def extractedCount (description : String) : Nat :=
  match findFormula description.data with
  | some (_, g2) => natOfDigits g2
  | none => 0

/-- the description has no formula, or its factor group parses to a number
(is not all dots).  Outside this set JavaScript computes `NaN` scores the
rational model cannot express. -/
def formulaSafe (description : String) : Bool :=
  match findFormula description.data with
  | some (g1, _) => (parseFloatQ g1).isSome
  | none => true

/-- `if (!multiplierMatch && expectedCount > 0) multiplier = maxPoints /
expectedCount;` applied to the extracted multiplier. -/
def resolvedMultiplier (description : String) (maxPoints : ℚ)
    (expectedCount : Nat) : ℚ :=
  if (findFormula description.data).isNone ∧ 0 < expectedCount then
    maxPoints / (expectedCount : ℚ)
  else extractedMultiplier description

/-- `filterElementsByContext(elements, type, context)` of `src/server.js`. -/
def filterElementsByContext (elements : List Element) (ty : String)
    (context : String) : List Element :=
  let ctx := lowerStr context
  let filtered := elements.filter (fun e => e.type == ty)
  if ty = "attribute" then
    if containsStr ctx "multi" then
      filtered.filter (fun e => e.subType == "multivalued")
    else if containsStr ctx "composite" then
      filtered.filter (fun e => e.subType == "composite")
    else if containsStr ctx "derived" then
      filtered.filter (fun e => e.subType == "derived")
    else if containsStr ctx "primary" || containsStr ctx "identifier" ||
        containsStr ctx "key" then
      filtered.filter (fun e => e.subType == "primary_key")
    else filtered
  else if ty = "entity" then
    if containsStr ctx "weak" then
      filtered.filter (fun e => e.subType == "weak")
    else if containsStr ctx "associative" then
      filtered.filter (fun e => e.subType == "associative")
    else filtered
  else if ty = "relationship" then
    if containsStr ctx "weak" || containsStr ctx "identifying" then
      filtered.filter (fun e => e.subType == "weak")
    else if containsStr ctx "associative" then
      filtered.filter (fun e => e.subType == "associative")
    else filtered
  else filtered

/-- wraps a string in the single quotes the feedback messages use
(written via the escape to keep quote characters out of source literals). -/
def sq (s : String) : String :=
  "\'" ++ s ++ "\'"

/-- The per-criterion accumulator of the classifier loops. -/
structure CatAcc where
  correctCount : Nat
  missing : List String
  incorrect : List String
  correctItems : List String
  matchedIds : List String
  entityMap : List (String × String)
deriving DecidableEq

/-- Loop body of the entity branch (`A. ENTITY MATCHING`). -/
def entityStep (studentEntities : List Element) (acc : CatAcc)
    (ce : Element) : CatAcc :=
  match studentEntities.find?
      (fun se => areStringsSemanticallySimilar se.name ce.name) with
  | some m =>
    if m.subType ≠ ce.subType then
      { acc with
        incorrect := acc.incorrect ++
          [ce.name ++ " (Incorrect Type: You used " ++ sq m.subType ++
            ", expected " ++ sq ce.subType ++ ")"],
        matchedIds := m.id :: acc.matchedIds }
    else
      { acc with
        correctCount := acc.correctCount + 1,
        correctItems := acc.correctItems ++
          [if m.name ≠ ce.name then
            ce.name ++ " (Note: You wrote " ++ sq m.name ++ ")"
          else ce.name],
        entityMap := (m.name, ce.name) :: acc.entityMap,
        matchedIds := m.id :: acc.matchedIds }
  | none => { acc with missing := acc.missing ++ [ce.name] }

/-- Loop body of the attribute branch (`B. ATTRIBUTE & KEY MATCHING`). -/
def attributeStep (studentAttrs : List Element) (isSpecificSection : Bool)
    (acc : CatAcc) (ca : Element) : CatAcc :=
  match studentAttrs.find? (fun sa =>
      areStringsSemanticallySimilar sa.name ca.name &&
      areStringsSemanticallySimilar (lookupOr acc.entityMap sa.belongsTo)
        ca.belongsTo) with
  | some m =>
    if isSpecificSection && (m.subType != ca.subType) then
      { acc with
        incorrect := acc.incorrect ++
          [if ca.subType = "primary_key" then
            ca.name ++ " is a Primary Key but was not underlined."
          else if ca.subType = "multivalued" then
            ca.name ++ " is Multivalued but missing double oval."
          else if ca.subType = "derived" then
            ca.name ++ " is Derived but missing dashed oval."
          else
            ca.name ++ " (Incorrect Notation: You used " ++ sq m.subType ++
              ", expected " ++ sq ca.subType ++ ")"],
        matchedIds := m.id :: acc.matchedIds }
    else
      { acc with
        correctCount := acc.correctCount + 1,
        correctItems := acc.correctItems ++
          [ca.name ++
            (if m.name ≠ ca.name then
              " (Note: You wrote " ++ sq m.name ++ ")"
            else "")],
        matchedIds := m.id :: acc.matchedIds }
  | none =>
    { acc with missing := acc.missing ++ [ca.name ++ " in " ++ ca.belongsTo] }

/-- The `find` predicate of the relationship branch. -/
def relMatchPred (em : List (String × String)) (cr sr : Element) : Bool :=
  let sFrom := lookupOr em sr.from_
  let sTo := lookupOr em sr.to_
  let forward := areStringsSemanticallySimilar sFrom cr.from_ &&
    areStringsSemanticallySimilar sTo cr.to_
  let reverse := areStringsSemanticallySimilar sFrom cr.to_ &&
    areStringsSemanticallySimilar sTo cr.from_
  let nameMatch := areStringsSemanticallySimilar sr.name cr.name
  (forward || reverse) || (nameMatch && (forward || reverse))

/-- Loop body of the relationship branch (`C. RELATIONSHIP MATCHING`). -/
def relationshipStep (studentRels : List Element) (acc : CatAcc)
    (cr : Element) : CatAcc :=
  match studentRels.find? (relMatchPred acc.entityMap cr) with
  | some m =>
    let acc1 :=
      if m.subType ≠ cr.subType then
        { acc with
          incorrect := acc.incorrect ++
            [cr.name ++ " (Incorrect Type: You used " ++ sq m.subType ++
              " diamond, expected " ++ sq cr.subType ++ ")"] }
      else
        { acc with
          correctCount := acc.correctCount + 1,
          correctItems := acc.correctItems ++
            [if m.name ≠ cr.name then
              cr.name ++ " (Note: " ++ sq m.name ++ ")"
            else cr.name] }
    { acc1 with matchedIds := m.id :: acc1.matchedIds }
  | none =>
    { acc with
      missing := acc.missing ++
        [cr.name ++ " between " ++ cr.from_ ++ " and " ++ cr.to_] }

/-- Loop body of the `Mark extras` pass after the relationship loop. -/
def extraRelationshipStep (acc : CatAcc) (sr : Element) : CatAcc :=
  if acc.matchedIds.contains sr.id then acc
  else
    { acc with incorrect := acc.incorrect ++ ["Extra relationship: " ++ sr.name] }

/-- The `find` predicate of the cardinality branch (endpoint matching,
direction-insensitive, without the relationship branch's name clause). -/
def cardMatchPred (em : List (String × String)) (cr sr : Element) : Bool :=
  let sFrom := lookupOr em sr.from_
  let sTo := lookupOr em sr.to_
  (areStringsSemanticallySimilar sFrom cr.from_ &&
    areStringsSemanticallySimilar sTo cr.to_) ||
  (areStringsSemanticallySimilar sFrom cr.to_ &&
    areStringsSemanticallySimilar sTo cr.from_)

/-- `useMinMax = (checksPerRelationship >= 3.5)` with
`checksPerRelationship = expectedCount / relationshipCount`.  JavaScript
division by zero gives `Infinity` (or `NaN` for `0 / 0`), so with no
relationships the flag is set exactly when `expectedCount > 0`. -/
def useMinMax (expectedCount relationshipCount : Nat) : Bool :=
  if relationshipCount = 0 then decide (0 < expectedCount)
  else decide ((7 : ℚ) / 2 ≤ (expectedCount : ℚ) / (relationshipCount : ℚ))

/-- `tag.split('..')` keeping the first two pieces, a missing piece being
the empty string (`undefined` behaves identically in the comparisons that
consume it). -/
def splitDDAux : List Char → List Char → List (List Char)
  | [], acc => [acc.reverse]
  | '.' :: '.' :: rest, acc => acc.reverse :: splitDDAux rest []
  | c :: rest, acc => splitDDAux rest (c :: acc)

/-- the `[min, max]` destructuring of `tag.split('..')`. -/
def split2 (s : String) : String × String :=
  match splitDDAux s.data [] with
  | [] => ("", "")
  | [a] => (String.mk a, "")
  | a :: b :: _ => (String.mk a, String.mk b)

/-- one `correctCount++/correctItems.push` or `incorrect.push` verdict of
the cardinality branch. -/
def checkComp (acc : CatAcc) (ok : Bool) (okItem badMsg : String) : CatAcc :=
  if ok then
    { acc with
      correctCount := acc.correctCount + 1,
      correctItems := acc.correctItems ++ [okItem] }
  else { acc with incorrect := acc.incorrect ++ [badMsg] }

/-- the component-mode incorrect message of the cardinality branch. -/
def cardMsg (cr : Element) (side kind expVal foundVal : String) : String :=
  cr.name ++ " (between " ++ cr.from_ ++ " & " ++ cr.to_ ++ ") towards " ++
    side ++ " " ++ kind ++ "-cardinality (Exp:" ++ expVal ++ " Found:" ++
    foundVal ++ ")"

/-- Loop body of the cardinality branch (`D. CARDINALITY`). -/
def cardinalityStep (studentRels : List Element) (useMM : Bool)
    (acc : CatAcc) (cr : Element) : CatAcc :=
  match studentRels.find? (cardMatchPred acc.entityMap cr) with
  | some sr =>
    let sFrom := lookupOr acc.entityMap sr.from_
    let isFlipped := areStringsSemanticallySimilar sFrom cr.to_
    let studentFromVal := if isFlipped then sr.cardinalityTo else sr.cardinalityFrom
    let studentToVal := if isFlipped then sr.cardinalityFrom else sr.cardinalityTo
    if useMM then
      let cF := split2 (orDefault cr.cardinalityFrom "..")
      let cT := split2 (orDefault cr.cardinalityTo "..")
      let sF := split2 (orDefault studentFromVal "..")
      let sT := split2 (orDefault studentToVal "..")
      let acc1 := checkComp acc (areStringsSemanticallySimilar sF.1 cF.1)
        (cr.name ++ " start-min") (cardMsg cr cr.from_ "min" cF.1 sF.1)
      let acc2 := checkComp acc1 (areStringsSemanticallySimilar sF.2 cF.2)
        (cr.name ++ " start-max") (cardMsg cr cr.from_ "max" cF.2 sF.2)
      let acc3 := checkComp acc2 (areStringsSemanticallySimilar sT.1 cT.1)
        (cr.name ++ " end-min") (cardMsg cr cr.to_ "min" cT.1 sT.1)
      checkComp acc3 (areStringsSemanticallySimilar sT.2 cT.2)
        (cr.name ++ " end-max") (cardMsg cr cr.to_ "max" cT.2 sT.2)
    else
      let acc1 := checkComp acc
        (containsStr (orDefault studentFromVal "") cr.cardinalityFrom ||
          containsStr (orDefault cr.cardinalityFrom "") studentFromVal)
        (cr.name ++ " start")
        (cr.name ++ " start (Exp:" ++ cr.cardinalityFrom ++ " Found:" ++
          studentFromVal ++ ")")
      checkComp acc1
        (containsStr (orDefault studentToVal "") cr.cardinalityTo ||
          containsStr (orDefault cr.cardinalityTo "") studentToVal)
        (cr.name ++ " end")
        (cr.name ++ " end (Exp:" ++ cr.cardinalityTo ++ " Found:" ++
          studentToVal ++ ")")
  | none =>
    { acc with missing := acc.missing ++ ["Cardinality for " ++ cr.name] }

/-- The category dispatch of the `if/else if` chain on `categoryLower`. -/
inductive CategoryKind where
  | entity
  | attributeKey
  | relationship
  | cardinality
  | other
deriving DecidableEq

/-- Which branch a lowercased category name selects. -/
def categoryOf (categoryLower : String) : CategoryKind :=
  if containsStr categoryLower "entit" then .entity
  else if containsStr categoryLower "attribute" || containsStr categoryLower "key" then
    .attributeKey
  else if containsStr categoryLower "relationship" &&
      !containsStr categoryLower "cardinality" then
    .relationship
  else if containsStr categoryLower "cardinality" then .cardinality
  else .other

/-- The classifier part of one criterion iteration: the final accumulator
and the final `expectedCount`. -/
def critAccEc (studentElements correctElements : List Element)
    (st : GradeState) (c : Criterion) : CatAcc × Nat :=
  let categoryLower := lowerStr c.category
  let hasFormula := (findFormula c.description.data).isSome
  let ec0 := extractedCount c.description
  let init : CatAcc :=
    ⟨0, [], [], [], st.matchedStudentIds, st.entityMap⟩
  match categoryOf categoryLower with
  | .entity =>
    let targets := filterElementsByContext correctElements "entity" categoryLower
    let studentEntities := studentElements.filter (fun e => e.type == "entity")
    (targets.foldl (entityStep studentEntities) init,
      if hasFormula then ec0 else targets.length)
  | .attributeKey =>
    let targets := filterElementsByContext correctElements "attribute" categoryLower
    let studentAttrs := studentElements.filter (fun e => e.type == "attribute")
    let isSpecificSection := containsStr categoryLower "primary" ||
      containsStr categoryLower "key" || containsStr categoryLower "derived" ||
      containsStr categoryLower "composite" || containsStr categoryLower "multi"
    (targets.foldl (attributeStep studentAttrs isSpecificSection) init,
      if hasFormula then ec0 else targets.length)
  | .relationship =>
    let targets := filterElementsByContext correctElements "relationship" categoryLower
    let studentRels := studentElements.filter (fun e => e.type == "relationship")
    let acc1 := targets.foldl (relationshipStep studentRels) init
    (studentRels.foldl extraRelationshipStep acc1,
      if hasFormula then ec0 else targets.length)
  | .cardinality =>
    let correctRels := correctElements.filter (fun e => e.type == "relationship")
    let studentRels := studentElements.filter (fun e => e.type == "relationship")
    let useMM := useMinMax ec0 correctRels.length
    (correctRels.foldl (cardinalityStep studentRels useMM) init, ec0)
  | .other => (init, ec0)

/-- `round2 q` models `parseFloat(q.toFixed(2))`: round to two decimal
places (idealized: exact rationals, ties rounded up). -/
def round2 (q : ℚ) : ℚ :=
  ((round (q * 100) : ℤ) : ℚ) / 100

/-- The tail of one criterion iteration: multiplier resolution, the
`earned` cap, and all the `result` pushes. -/
def finishCriterion (st : GradeState) (c : Criterion) (acc : CatAcc)
    (expectedCount : Nat) : GradeState :=
  let multiplier := resolvedMultiplier c.description c.maxPoints expectedCount
  let earned := min ((acc.correctCount : ℚ) * multiplier) c.maxPoints
  { totalScore := st.totalScore + earned
    breakdown := st.breakdown ++ [⟨c.category, round2 earned, c.maxPoints, ""⟩]
    correctElements := st.correctElements ++ [(c.category, acc.correctItems)]
    missingElements := st.missingElements ++ [(c.category, acc.missing)]
    incorrectElements := st.incorrectElements ++ [(c.category, acc.incorrect)]
    debugInfo := st.debugInfo ++
      [(c.category, ⟨expectedCount, acc.correctCount, multiplier,
        acc.missing, acc.incorrect⟩)]
    matchedStudentIds := acc.matchedIds
    entityMap := acc.entityMap }

/-- One iteration of `rubric.criteria.forEach(criterion => ...)`. -/
def processCriterion (studentElements correctElements : List Element)
    (st : GradeState) (c : Criterion) : GradeState :=
  let (acc, expectedCount) := critAccEc studentElements correctElements st c
  finishCriterion st c acc expectedCount

/-- The state after the whole `forEach` loop of `calculateGrades`. -/
def calculateGradesState (studentElements correctElements : List Element)
    (rubric : Rubric) : GradeState :=
  rubric.criteria.foldl (processCriterion studentElements correctElements)
    ⟨0, [], [], [], [], [], [], []⟩

/-- `calculateGrades(studentElements, correctElements, rubric)` of
`src/server.js`. -/
def calculateGrades (studentElements correctElements : List Element)
    (rubric : Rubric) : GradeResult :=
  let st := calculateGradesState studentElements correctElements rubric
  { totalScore := round2 st.totalScore
    maxScore := rubric.totalPoints
    breakdown := st.breakdown
    correctElements := st.correctElements
    missingElements := st.missingElements
    incorrectElements := st.incorrectElements
    debugInfo := st.debugInfo }

/-- `correctAnswer` as received by `/autograde-erd`; its `elements` field
may be absent. -/
structure CorrectAnswer where
  elements : Option (List Element)
deriving DecidableEq

/-- The `/autograde-erd` request body; each top-level field may be absent
(`undefined`). -/
structure AutogradeRequest where
  studentElements : Option (List Element)
  correctAnswer : Option CorrectAnswer
  rubricStructured : Option Rubric
deriving DecidableEq

/-- the `message` of the 400 response of `/autograde-erd`. -/
def missingDataMessage : String :=
  "Need studentElements, correctAnswer, and rubricStructured"

/-- `if (!studentElements || !correctAnswer || !correctAnswer.elements)`:
the input validation of `/autograde-erd`.  An empty array is truthy in
JavaScript, so presence is all that is tested — `rubricStructured` is not
looked at. -/
def validAutogradeInput (req : AutogradeRequest) : Bool :=
  match req.studentElements, req.correctAnswer with
  | some _, some ca => ca.elements.isSome
  | _, _ => false

/-- The handler outcomes the model distinguishes: the 400 validation
response, the 500 catch-all response, or the grading result handed on to
the (out-of-scope) feedback generation. -/
inductive AutogradeResponse where
  | badRequest (error message : String)
  | serverError (error : String)
  | graded (g : GradeResult)
deriving DecidableEq

/-- `calculateGrades` as called by the handler: with `rubricStructured`
absent, the very first field initializer `maxScore: rubric.totalPoints`
throws a `TypeError`, modelled as the error case. -/
def calculateGradesChecked (studentElements correctElements : List Element)
    (rubric : Option Rubric) : Except String GradeResult :=
  match rubric with
  | none => .error "Cannot read properties of undefined (reading totalPoints)"
  | some rb => .ok (calculateGrades studentElements correctElements rb)

/-- The deterministic prefix of the `/autograde-erd` handler: validation,
then grading inside the `try`; a grading exception reaches the `catch`,
which answers 500 with `error: 'Auto-grading failed'`. -/
def autogradeHandler (req : AutogradeRequest) : AutogradeResponse :=
  if validAutogradeInput req then
    match req.studentElements, req.correctAnswer with
    | some se, some ca =>
      match ca.elements with
      | some ce =>
        match calculateGradesChecked se ce req.rubricStructured with
        | .ok g => .graded g
        | .error _ => .serverError "Auto-grading failed"
      | none => .badRequest "Missing required data" missingDataMessage
    | _, _ => .badRequest "Missing required data" missingDataMessage
  else .badRequest "Missing required data" missingDataMessage

/-- Statement helper: the entry each correct-answer item of criterion `c`
contributes to the `missing` list when nothing matches, phrased with the
classifier messages of `calculateGrades`. -/
def missingAllFor (correctElements : List Element) (c : Criterion) :
    List String :=
  let categoryLower := lowerStr c.category
  match categoryOf categoryLower with
  | .entity =>
    (filterElementsByContext correctElements "entity" categoryLower).map
      (fun e => e.name)
  | .attributeKey =>
    (filterElementsByContext correctElements "attribute" categoryLower).map
      (fun a => a.name ++ " in " ++ a.belongsTo)
  | .relationship =>
    (filterElementsByContext correctElements "relationship" categoryLower).map
      (fun r => r.name ++ " between " ++ r.from_ ++ " and " ++ r.to_)
  | .cardinality =>
    (correctElements.filter (fun e => e.type == "relationship")).map
      (fun r => "Cardinality for " ++ r.name)
  | .other => []

/-- every binding of the entity alias map is an identity binding, as is the
case when every matched student entity carries exactly its correct name. -/
def IdMap (em : List (String × String)) : Prop :=
  ∀ p ∈ em, p.1 = p.2

/-- the endpoint pairs of two relationships agree under the fuzzy matcher,
in the forward or the reversed orientation (the core of the relationship
and cardinality `find` predicates). -/
def relEndpointsSimilar (a b : Element) : Bool :=
  (areStringsSemanticallySimilar a.from_ b.from_ &&
    areStringsSemanticallySimilar a.to_ b.to_) ||
  (areStringsSemanticallySimilar a.from_ b.to_ &&
    areStringsSemanticallySimilar a.to_ b.from_)

/-- Statement helper: the correct-answer list is unambiguous enough for a
verbatim resubmission to match itself item by item: names are nonempty,
relationship endpoints are nonempty, not similar to each other (no
flipped self-alignment) and pairwise distinct, cardinality tags have
nonempty min/max parts, attributes have nonempty owners, and same-type
elements are pairwise non-similar under the fuzzy matcher. -/
def VerbatimSafe (correct : List Element) : Prop :=
  (∀ e ∈ correct, e.name ≠ "") ∧
  (∀ e ∈ correct, e.type = "relationship" →
    e.from_ ≠ "" ∧ e.to_ ≠ "" ∧
    areStringsSemanticallySimilar e.from_ e.to_ = false ∧
    (split2 (orDefault e.cardinalityFrom "..")).1 ≠ "" ∧
    (split2 (orDefault e.cardinalityFrom "..")).2 ≠ "" ∧
    (split2 (orDefault e.cardinalityTo "..")).1 ≠ "" ∧
    (split2 (orDefault e.cardinalityTo "..")).2 ≠ "") ∧
  (∀ e ∈ correct, e.type = "attribute" → e.belongsTo ≠ "") ∧
  (correct.filter (fun e => e.type == "entity")).Pairwise
    (fun a b => areStringsSemanticallySimilar a.name b.name = false) ∧
  (correct.filter (fun e => e.type == "attribute")).Pairwise
    (fun a b => (areStringsSemanticallySimilar a.name b.name &&
      areStringsSemanticallySimilar a.belongsTo b.belongsTo) = false) ∧
  (correct.filter (fun e => e.type == "relationship")).Pairwise
    (fun a b => relEndpointsSimilar a b = false)

/-- Statement helper: the conditions under which one criterion reaches its
full `maxPoints` on a fully matching submission: its category selects a
classifier; a formula multiplier, when present, covers `maxPoints` over
the full correct count; without a formula the target subset is nonempty
(so the `maxPoints / expectedCount` fallback applies); a relationship
criterion does not filter away part of the relationships (otherwise the
extras pass would flag the remainder of the verbatim submission). -/
def CritOK (correct : List Element) (c : Criterion) : Prop :=
  match categoryOf (lowerStr c.category) with
  | CategoryKind.entity =>
    ((findFormula c.description.data).isSome = true →
      c.maxPoints ≤
        ((filterElementsByContext correct "entity" (lowerStr c.category)).length : ℚ) *
          extractedMultiplier c.description) ∧
    (findFormula c.description.data = none →
      filterElementsByContext correct "entity" (lowerStr c.category) ≠ [])
  | CategoryKind.attributeKey =>
    ((findFormula c.description.data).isSome = true →
      c.maxPoints ≤
        ((filterElementsByContext correct "attribute" (lowerStr c.category)).length : ℚ) *
          extractedMultiplier c.description) ∧
    (findFormula c.description.data = none →
      filterElementsByContext correct "attribute" (lowerStr c.category) ≠ [])
  | CategoryKind.relationship =>
    filterElementsByContext correct "relationship" (lowerStr c.category) =
      correct.filter (fun e => e.type == "relationship") ∧
    ((findFormula c.description.data).isSome = true →
      c.maxPoints ≤
        ((correct.filter (fun e => e.type == "relationship")).length : ℚ) *
          extractedMultiplier c.description) ∧
    (findFormula c.description.data = none →
      correct.filter (fun e => e.type == "relationship") ≠ [])
  | CategoryKind.cardinality =>
    c.maxPoints ≤
      (((if useMinMax (extractedCount c.description)
            (correct.filter (fun e => e.type == "relationship")).length
          then 4 else 2) *
        (correct.filter (fun e => e.type == "relationship")).length : ℕ) : ℚ) *
        extractedMultiplier c.description
  | CategoryKind.other => False

/-! Concrete grading runs used by the counterexamples and witnesses. -/

/-- a single strong entity named Customer. -/
def customerEntity : Element :=
  { id := "c1", name := "Customer", type := "entity", subType := "strong" }

/-- a rubric whose only criterion is worth 0.006 points: three decimal
places, below the `toFixed(2)` resolution. -/
def subCentRubric : Rubric :=
  ⟨3 / 500, [⟨"Entities", 3 / 500, "All entities"⟩]⟩

/-- a one-entity, one-criterion rubric worth 2 points. -/
def twoPointEntityRubric : Rubric :=
  ⟨2, [⟨"Entities", 2, "Entities identified"⟩]⟩

/-- two entities and two relationships that connect the same endpoint pair
(Teacher, Student) with different diamond types. -/
def sameEndpointsCorrect : List Element :=
  [{ id := "e1", name := "Teacher", type := "entity", subType := "strong" },
   { id := "e2", name := "Student", type := "entity", subType := "strong" },
   { id := "r1", name := "Teaches", type := "relationship", subType := "strong",
     from_ := "Teacher", to_ := "Student",
     cardinalityFrom := "1..M", cardinalityTo := "0..M" },
   { id := "r2", name := "Advises", type := "relationship", subType := "weak",
     from_ := "Teacher", to_ := "Student",
     cardinalityFrom := "0..1", cardinalityTo := "1..1" }]

/-- a rubric grading only the relationship category, 2 points, no formula. -/
def relOnlyRubric : Rubric :=
  ⟨2, [⟨"Relationships", 2, "Relationships correct"⟩]⟩

/-- student entities: a copy of Customer plus an extra entity Ghost that
matches nothing in the correct answer. -/
def ghostStudent : List Element :=
  [{ id := "s1", name := "Customer", type := "entity", subType := "strong" },
   { id := "s2", name := "Ghost", type := "entity", subType := "strong" }]

/-- a one-criterion entity rubric worth 10 points. -/
def tenPointEntityRubric : Rubric :=
  ⟨10, [⟨"Entities", 10, "All entities identified"⟩]⟩

/-- the correct relationship of the wrong-shape scenario: Enrolls, strong,
Student to Course. -/
def enrollsCorrect : Element :=
  { id := "cr1", name := "Enrolls", type := "relationship", subType := "strong",
    from_ := "Student", to_ := "Course",
    cardinalityFrom := "1..M", cardinalityTo := "0..M" }

/-- the student relationship of the wrong-shape scenario: same endpoints,
weak diamond. -/
def enrollsStudent : Element :=
  { id := "sr1", name := "Enrolls", type := "relationship", subType := "weak",
    from_ := "Student", to_ := "Course",
    cardinalityFrom := "1..M", cardinalityTo := "0..M" }

/-- the correct relationship Visits between Patient and Doctor with
cardinalities 1..M and 0..1. -/
def visitsRel : Element :=
  { id := "r1", name := "Visits", type := "relationship", subType := "strong",
    from_ := "Pat", to_ := "Doc",
    cardinalityFrom := "1..M", cardinalityTo := "0..1" }

/-- the singleton correct-answer list holding `visitsRel`. -/
def visitsCorrect : List Element :=
  [visitsRel]

/-- a cardinality-only rubric, 4 points, description without a formula. -/
def cardNoFormulaRubric : Rubric :=
  ⟨4, [⟨"Cardinality", 4, "Cardinality correctness"⟩]⟩

/-- the student entity Customers of the rename-tolerance scenario. -/
def customersStudent : List Element :=
  [{ id := "s1", name := "Customers", type := "entity", subType := "strong" }]

/-- an unambiguous correct answer covering all four categories: two
entities, a primary-key attribute and one relationship. -/
def verbatimCorrect : List Element :=
  [{ id := "e1", name := "Car", type := "entity", subType := "strong" },
   { id := "e2", name := "Bus", type := "entity", subType := "weak" },
   { id := "a1", name := "Vin", type := "attribute", subType := "primary_key",
     belongsTo := "Car", belongsToType := "entity" },
   { id := "r1", name := "Has", type := "relationship", subType := "strong",
     from_ := "Car", to_ := "Bus",
     cardinalityFrom := "1..1", cardinalityTo := "0..M" }]

/-- a four-criterion rubric over `verbatimCorrect`, one criterion per
classifier, one of them with an explicit formula. -/
def verbatimRubric : Rubric :=
  ⟨11, [⟨"Entities", 4, "All entities correct"⟩,
        ⟨"Primary Keys", 2, "Primary keys underlined"⟩,
        ⟨"Relationships", 3, "Relationships: 3 x 1"⟩,
        ⟨"Cardinality", 2, "Cardinality tags"⟩]⟩

end ErdGrader

namespace ErdGrader

theorem strIncludes_refl (l : List Char) : strIncludes l l = true := by
  have h : l.isPrefixOf l = true := by
    induction l with
    | nil => rfl
    | cons x xs ih => simp [List.isPrefixOf, ih]
  unfold strIncludes
  cases l <;> simp_all

theorem getLevenshteinDistance_nil_right (a : List Char) :
    getLevenshteinDistance a [] = a.length := by
  cases a <;> simp [getLevenshteinDistance]

theorem getLevenshteinDistance_comm_aux :
    ∀ (n : Nat) (a b : List Char), a.length + b.length ≤ n →
      getLevenshteinDistance a b = getLevenshteinDistance b a := by
  intro n
  induction n with
  | zero =>
    intro a b h
    cases a <;> cases b <;> simp_all
  | succ n ih =>
    intro a b h
    match a, b with
    | [], b =>
      simp [getLevenshteinDistance, getLevenshteinDistance_nil_right]
    | x :: xs, [] =>
      simp [getLevenshteinDistance, getLevenshteinDistance_nil_right]
    | x :: xs, y :: ys =>
      have hxy : xs.length + ys.length ≤ n := by
        simp only [List.length_cons] at h; omega
      have hx : (x :: xs).length + ys.length ≤ n := by
        simp only [List.length_cons] at h ⊢; omega
      have hy : xs.length + (y :: ys).length ≤ n := by
        simp only [List.length_cons] at h ⊢; omega
      by_cases hc : x = y
      · subst hc
        simp only [getLevenshteinDistance, if_pos rfl]
        exact ih xs ys hxy
      · have hc' : ¬ y = x := fun hh => hc hh.symm
        simp only [getLevenshteinDistance, if_neg hc, if_neg hc']
        rw [ih xs ys hxy, ih (x :: xs) ys hx, ih xs (y :: ys) hy]
        omega

theorem getLevenshteinDistance_comm (a b : List Char) :
    getLevenshteinDistance a b = getLevenshteinDistance b a :=
  getLevenshteinDistance_comm_aux (a.length + b.length) a b le_rfl

theorem areStringsSemanticallySimilar_imp (a b : String)
    (h : areStringsSemanticallySimilar a b = true) :
    areStringsSemanticallySimilar b a = true := by
  unfold areStringsSemanticallySimilar at h ⊢
  by_cases hab : a = "" ∨ b = ""
  · rw [if_pos hab] at h
    exact absurd h (by simp)
  · have hba : ¬ (b = "" ∨ a = "") := fun hh => hab (hh.elim Or.inr Or.inl)
    rw [if_neg hab] at h
    rw [if_neg hba]
    simp only [Bool.or_eq_true, Bool.and_eq_true, decide_eq_true_eq] at h ⊢
    rw [Nat.max_comm (cleanName b).length (cleanName a).length,
      getLevenshteinDistance_comm (cleanName b) (cleanName a)]
    rcases h with ((((h1 | h2) | h3) | h4) | h5) | h6
    · exact Or.inl (Or.inl (Or.inl (Or.inl (Or.inl h1.symm))))
    · exact Or.inl (Or.inl (Or.inl (Or.inr h2)))
    · exact Or.inl (Or.inl (Or.inl (Or.inl (Or.inr h3))))
    · obtain ⟨⟨hl1, hl2⟩, hstem⟩ := h4
      refine Or.inl (Or.inl (Or.inr ⟨⟨hl2, hl1⟩, ?_⟩))
      rcases hstem with ((((s1 | s2) | s3) | s4) | s5) | s6
      · exact Or.inl (Or.inl (Or.inl (Or.inl (Or.inr s1))))
      · exact Or.inl (Or.inl (Or.inl (Or.inl (Or.inl s2))))
      · exact Or.inl (Or.inl (Or.inr s3))
      · exact Or.inl (Or.inl (Or.inl (Or.inr s4)))
      · exact Or.inr s5
      · exact Or.inl (Or.inr s6)
    · exact Or.inl (Or.inr h5.symm)
    · exact Or.inr h6

/-- C7: the fuzzy name matcher is symmetric: for every pair of strings,
`areStringsSemanticallySimilar a b = areStringsSemanticallySimilar b a`. -/
theorem fuzzy_matcher_symmetric (a b : String) :
    areStringsSemanticallySimilar a b = areStringsSemanticallySimilar b a := by
  cases hab : areStringsSemanticallySimilar a b with
  | true => exact (areStringsSemanticallySimilar_imp a b hab).symm
  | false =>
    cases hba : areStringsSemanticallySimilar b a with
    | true => rw [areStringsSemanticallySimilar_imp b a hba] at hab; exact hab.symm
    | false => rfl

theorem round2_mono {a b : ℚ} (h : a ≤ b) : round2 a ≤ round2 b := by
  unfold round2
  have h100 : round (a * 100) ≤ round (b * 100) := by
    rw [round_eq, round_eq]
    exact Int.floor_mono (by linarith)
  exact (div_le_div_right (by norm_num)).mpr (by exact_mod_cast h100)

theorem round2_nonneg {a : ℚ} (h : 0 ≤ a) : 0 ≤ round2 a := by
  have h0 : round2 0 = 0 := by simp [round2]
  exact h0 ▸ round2_mono h

theorem round2_cent (k : ℕ) : round2 ((k : ℚ) / 100) = (k : ℚ) / 100 := by
  unfold round2
  rw [div_mul_cancel₀ _ (by norm_num : (100 : ℚ) ≠ 0)]
  rw [round_natCast]
  push_cast
  ring

theorem centSum :
    ∀ l : List ℚ, (∀ q ∈ l, ∃ k : ℕ, q = (k : ℚ) / 100) →
      ∃ K : ℕ, l.sum = (K : ℚ) / 100 := by
  intro l
  induction l with
  | nil => intro _; exact ⟨0, by simp⟩
  | cons q qs ih =>
    intro h
    obtain ⟨k, hk⟩ := h q (by simp)
    obtain ⟨K, hK⟩ := ih (fun r hr => h r (by simp [hr]))
    refine ⟨k + K, ?_⟩
    rw [List.sum_cons, hk, hK]
    push_cast
    ring

theorem parseFloatQ_getD_nonneg (s : List Char) : 0 ≤ (parseFloatQ s).getD 0 := by
  unfold parseFloatQ
  split
  · split
    · simp
    · simp only [Option.getD_some]
      positivity
  · split
    · simp
    · simp only [Option.getD_some]
      positivity

theorem extractedMultiplier_nonneg (d : String) : 0 ≤ extractedMultiplier d := by
  unfold extractedMultiplier
  split
  · exact parseFloatQ_getD_nonneg _
  · norm_num

theorem resolvedMultiplier_nonneg (d : String) {maxP : ℚ} (ec : Nat)
    (h : 0 ≤ maxP) : 0 ≤ resolvedMultiplier d maxP ec := by
  unfold resolvedMultiplier
  split
  · positivity
  · exact extractedMultiplier_nonneg d

theorem earned_bounds (c : Criterion) (acc : CatAcc) (ec : Nat)
    (hk : ∃ k : ℕ, c.maxPoints = (k : ℚ) / 100) :
    0 ≤ min ((acc.correctCount : ℚ) *
        resolvedMultiplier c.description c.maxPoints ec) c.maxPoints ∧
    min ((acc.correctCount : ℚ) *
        resolvedMultiplier c.description c.maxPoints ec) c.maxPoints ≤
      c.maxPoints ∧
    0 ≤ round2 (min ((acc.correctCount : ℚ) *
        resolvedMultiplier c.description c.maxPoints ec) c.maxPoints) ∧
    round2 (min ((acc.correctCount : ℚ) *
        resolvedMultiplier c.description c.maxPoints ec) c.maxPoints) ≤
      c.maxPoints := by
  obtain ⟨k, hkk⟩ := hk
  have hmp : 0 ≤ c.maxPoints := by rw [hkk]; positivity
  have hmul : 0 ≤ resolvedMultiplier c.description c.maxPoints ec :=
    resolvedMultiplier_nonneg _ _ hmp
  have h0 : 0 ≤ min ((acc.correctCount : ℚ) *
      resolvedMultiplier c.description c.maxPoints ec) c.maxPoints :=
    le_min (by positivity) hmp
  have h1 : min ((acc.correctCount : ℚ) *
      resolvedMultiplier c.description c.maxPoints ec) c.maxPoints ≤
      c.maxPoints := min_le_right _ _
  refine ⟨h0, h1, round2_nonneg h0, ?_⟩
  calc round2 (min ((acc.correctCount : ℚ) *
        resolvedMultiplier c.description c.maxPoints ec) c.maxPoints)
      ≤ round2 c.maxPoints := round2_mono h1
    _ = c.maxPoints := by rw [hkk, round2_cent]

theorem processCriterion_eq (se ce : List Element) (st : GradeState)
    (c : Criterion) :
    processCriterion se ce st c =
      finishCriterion st c (critAccEc se ce st c).1 (critAccEc se ce st c).2 :=
  rfl

theorem gradeFold_bounds (se ce : List Element) :
    ∀ (crits : List Criterion) (st : GradeState) (B : ℚ),
      (∀ c ∈ crits, ∃ k : ℕ, c.maxPoints = (k : ℚ) / 100) →
      (∀ row ∈ st.breakdown, 0 ≤ row.earned ∧ row.earned ≤ row.max) →
      0 ≤ st.totalScore → st.totalScore ≤ B →
      (∀ row ∈ (crits.foldl (processCriterion se ce) st).breakdown,
        0 ≤ row.earned ∧ row.earned ≤ row.max) ∧
      0 ≤ (crits.foldl (processCriterion se ce) st).totalScore ∧
      (crits.foldl (processCriterion se ce) st).totalScore ≤
        B + (crits.map (fun c => c.maxPoints)).sum := by
  intro crits
  induction crits with
  | nil =>
    intro st B _ hrows h0 hB
    exact ⟨hrows, h0, by simpa using hB⟩
  | cons c cs ih =>
    intro st B hk hrows h0 hB
    have hkc := hk c (by simp)
    obtain ⟨he0, _, hr0, hr1⟩ :=
      earned_bounds c (critAccEc se ce st c).1 (critAccEc se ce st c).2 hkc
    have hstep := ih (processCriterion se ce st c) (B + c.maxPoints)
      (fun d hd => hk d (by simp [hd]))
      (by
        rw [processCriterion_eq]
        intro row hrow
        simp only [finishCriterion, List.mem_append, List.mem_singleton] at hrow
        rcases hrow with hrow | hrow
        · exact hrows row hrow
        · subst hrow
          exact ⟨hr0, hr1⟩)
      (by
        rw [processCriterion_eq]
        simp only [finishCriterion]
        positivity)
      (by
        rw [processCriterion_eq]
        simp only [finishCriterion]
        have := min_le_right ((((critAccEc se ce st c).1).correctCount : ℚ) *
          resolvedMultiplier c.description c.maxPoints (critAccEc se ce st c).2)
          c.maxPoints
        linarith)
    simp only [List.foldl_cons, List.map_cons, List.sum_cons]
    refine ⟨hstep.1, hstep.2.1, hstep.2.2.trans_eq (by ring)⟩

/-- C1 (amended): when every criterion's `maxPoints` is a nonnegative
multiple of 0.01, the criteria `maxPoints` sum to at most the rubric's
`totalPoints`, and every formula factor parses, each breakdown row
satisfies `0 ≤ earned ≤ max` and the result satisfies
`0 ≤ totalScore ≤ maxScore`.  Without the 0.01 granularity the
`toFixed(2)` rounding can push `earned` above `max`
(`calculateGrades_round2_exceeds_max`). -/
theorem calculateGrades_score_bounds (student correct : List Element)
    (rubric : Rubric)
    (hcent : ∀ c ∈ rubric.criteria, ∃ k : ℕ, c.maxPoints = (k : ℚ) / 100)
    (hsum : (rubric.criteria.map (fun c => c.maxPoints)).sum ≤ rubric.totalPoints)
    (_hsafe : ∀ c ∈ rubric.criteria, formulaSafe c.description = true) :
    (∀ row ∈ (calculateGrades student correct rubric).breakdown,
      0 ≤ row.earned ∧ row.earned ≤ row.max) ∧
    0 ≤ (calculateGrades student correct rubric).totalScore ∧
    (calculateGrades student correct rubric).totalScore ≤
      (calculateGrades student correct rubric).maxScore := by
  obtain ⟨hrows, h0, hle⟩ := gradeFold_bounds student correct rubric.criteria
    ⟨0, [], [], [], [], [], [], []⟩ 0 hcent (by simp) le_rfl le_rfl
  obtain ⟨K, hK⟩ := centSum (rubric.criteria.map (fun c => c.maxPoints))
    (by
      intro q hq
      simp only [List.mem_map] at hq
      obtain ⟨c, hc, rfl⟩ := hq
      exact hcent c hc)
  refine ⟨hrows, round2_nonneg h0, ?_⟩
  show round2 (calculateGradesState student correct rubric).totalScore ≤
    rubric.totalPoints
  calc round2 (calculateGradesState student correct rubric).totalScore
      ≤ round2 ((K : ℚ) / 100) := by
        apply round2_mono
        calc (calculateGradesState student correct rubric).totalScore
            ≤ 0 + (rubric.criteria.map (fun c => c.maxPoints)).sum := hle
          _ = (K : ℚ) / 100 := by rw [zero_add, hK]
    _ = (K : ℚ) / 100 := round2_cent K
    _ ≤ rubric.totalPoints := by rw [← hK]; exact hsum

/-- C1 counterexample: with a criterion worth 0.006 points and a verbatim
student answer, the rounded breakdown `earned` (0.01) exceeds `max`
(0.006) and the rounded `totalScore` exceeds `maxScore`: the claim's bound
fails on a raw run of `calculateGrades`. -/
theorem calculateGrades_round2_exceeds_max :
    (calculateGrades [customerEntity] [customerEntity] subCentRubric).breakdown =
      [⟨"Entities", 1 / 100, 3 / 500, ""⟩] ∧
    ¬ ((1 : ℚ) / 100 ≤ 3 / 500) ∧
    (calculateGrades [customerEntity] [customerEntity] subCentRubric).totalScore =
      1 / 100 ∧
    (calculateGrades [customerEntity] [customerEntity] subCentRubric).maxScore =
      3 / 500 ∧
    ¬ ((calculateGrades [customerEntity] [customerEntity] subCentRubric).totalScore ≤
        (calculateGrades [customerEntity] [customerEntity] subCentRubric).maxScore) := by
  have hacc : critAccEc [customerEntity] [customerEntity]
      ⟨0, [], [], [], [], [], [], []⟩ ⟨"Entities", 3 / 500, "All entities"⟩ =
      (⟨1, [], [], ["Customer"], ["c1"], [("Customer", "Customer")]⟩, 1) := by
    decide
  have hff : findFormula ("All entities" : String).data = none := by decide
  have hmult : resolvedMultiplier "All entities" (3 / 500) 1 = 3 / 500 := by
    unfold resolvedMultiplier
    rw [hff]
    norm_num
  have hr2 : round2 (3 / 500) = 1 / 100 := by
    unfold round2
    norm_num [round_eq]
  have hstate : calculateGradesState [customerEntity] [customerEntity]
      subCentRubric =
      { totalScore := 3 / 500
        breakdown := [⟨"Entities", 1 / 100, 3 / 500, ""⟩]
        correctElements := [("Entities", ["Customer"])]
        missingElements := [("Entities", [])]
        incorrectElements := [("Entities", [])]
        debugInfo := [("Entities", ⟨1, 1, 3 / 500, [], []⟩)]
        matchedStudentIds := ["c1"]
        entityMap := [("Customer", "Customer")] } := by
    unfold calculateGradesState subCentRubric
    rw [List.foldl_cons, List.foldl_nil, processCriterion_eq, hacc]
    unfold finishCriterion
    simp only [hmult]
    norm_num [hr2]
  have hts : round2 (3 / 500) = 1 / 100 := hr2
  refine ⟨?_, by norm_num, ?_, ?_, ?_⟩
  · show (calculateGradesState [customerEntity] [customerEntity]
        subCentRubric).breakdown = _
    rw [hstate]
  · show round2 (calculateGradesState [customerEntity] [customerEntity]
        subCentRubric).totalScore = 1 / 100
    rw [hstate]
    exact hts
  · rfl
  · show ¬ (round2 (calculateGradesState [customerEntity] [customerEntity]
        subCentRubric).totalScore ≤ subCentRubric.totalPoints)
    rw [hstate]
    show ¬ (round2 (3 / 500) ≤ (3 : ℚ) / 500)
    rw [hts]
    norm_num

theorem entityFold_empty (targets : List Element) :
    ∀ init : CatAcc,
      targets.foldl (entityStep []) init =
        { init with missing := init.missing ++ targets.map (fun e => e.name) } := by
  induction targets with
  | nil => intro init; simp
  | cons t ts ih =>
    intro init
    rw [List.foldl_cons]
    have hstep : entityStep [] init t =
        { init with missing := init.missing ++ [t.name] } := by
      simp [entityStep]
    rw [hstep, ih]
    simp

theorem attributeFold_empty (spec : Bool) (targets : List Element) :
    ∀ init : CatAcc,
      targets.foldl (attributeStep [] spec) init =
        { init with missing := init.missing ++
          targets.map (fun a => a.name ++ " in " ++ a.belongsTo) } := by
  induction targets with
  | nil => intro init; simp
  | cons t ts ih =>
    intro init
    rw [List.foldl_cons]
    have hstep : attributeStep [] spec init t =
        { init with missing := init.missing ++ [t.name ++ " in " ++ t.belongsTo] } := by
      simp [attributeStep]
    rw [hstep, ih]
    simp

theorem relationshipFold_empty (targets : List Element) :
    ∀ init : CatAcc,
      targets.foldl (relationshipStep []) init =
        { init with missing := init.missing ++
          targets.map (fun r => r.name ++ " between " ++ r.from_ ++ " and " ++ r.to_) } := by
  induction targets with
  | nil => intro init; simp
  | cons t ts ih =>
    intro init
    rw [List.foldl_cons]
    have hstep : relationshipStep [] init t =
        { init with missing := init.missing ++
          [t.name ++ " between " ++ t.from_ ++ " and " ++ t.to_] } := by
      simp [relationshipStep]
    rw [hstep, ih]
    simp

theorem cardinalityFold_empty (useMM : Bool) (targets : List Element) :
    ∀ init : CatAcc,
      targets.foldl (cardinalityStep [] useMM) init =
        { init with missing := init.missing ++
          targets.map (fun r => "Cardinality for " ++ r.name) } := by
  induction targets with
  | nil => intro init; simp
  | cons t ts ih =>
    intro init
    rw [List.foldl_cons]
    have hstep : cardinalityStep [] useMM init t =
        { init with missing := init.missing ++ ["Cardinality for " ++ t.name] } := by
      simp [cardinalityStep]
    rw [hstep, ih]
    simp

theorem critAccEc_empty_student (correct : List Element) (st : GradeState)
    (c : Criterion) :
    (critAccEc [] correct st c).1 =
      ⟨0, missingAllFor correct c, [], [], st.matchedStudentIds, st.entityMap⟩ := by
  rcases hcat : categoryOf (lowerStr c.category) with _ | _ | _ | _ | _ <;>
    simp only [critAccEc, missingAllFor, hcat] <;>
    simp [List.filter_nil, entityFold_empty, attributeFold_empty,
      relationshipFold_empty, cardinalityFold_empty, List.foldl_nil]

theorem emptyStudentFold (correct : List Element) :
    ∀ (crits : List Criterion) (st : GradeState),
      (∀ c ∈ crits, 0 ≤ c.maxPoints) →
      (crits.foldl (processCriterion [] correct) st).totalScore = st.totalScore ∧
      (crits.foldl (processCriterion [] correct) st).breakdown =
        st.breakdown ++ crits.map (fun c => ⟨c.category, 0, c.maxPoints, ""⟩) ∧
      (crits.foldl (processCriterion [] correct) st).missingElements =
        st.missingElements ++
          crits.map (fun c => (c.category, missingAllFor correct c)) ∧
      (∀ d ∈ (crits.foldl (processCriterion [] correct) st).debugInfo,
        d ∈ st.debugInfo ∨ d.2.correctCount = 0) := by
  intro crits
  induction crits with
  | nil =>
    intro st _
    exact ⟨rfl, by simp, by simp, fun d hd => Or.inl hd⟩
  | cons c cs ih =>
    intro st hmax
    have hmp : 0 ≤ c.maxPoints := hmax c (by simp)
    have hearned : min (((0 : ℕ) : ℚ) *
        resolvedMultiplier c.description c.maxPoints (critAccEc [] correct st c).2)
        c.maxPoints = 0 := by
      rw [Nat.cast_zero, zero_mul]
      exact min_eq_left hmp
    have hstep : processCriterion [] correct st c =
        { totalScore := st.totalScore
          breakdown := st.breakdown ++ [⟨c.category, 0, c.maxPoints, ""⟩]
          correctElements := st.correctElements ++ [(c.category, [])]
          missingElements := st.missingElements ++
            [(c.category, missingAllFor correct c)]
          incorrectElements := st.incorrectElements ++ [(c.category, [])]
          debugInfo := st.debugInfo ++
            [(c.category, ⟨(critAccEc [] correct st c).2, 0,
              resolvedMultiplier c.description c.maxPoints
                (critAccEc [] correct st c).2,
              missingAllFor correct c, []⟩)]
          matchedStudentIds := st.matchedStudentIds
          entityMap := st.entityMap } := by
      rw [processCriterion_eq, critAccEc_empty_student]
      unfold finishCriterion
      simp only [hearned]
      have : round2 0 = 0 := by simp [round2]
      rw [this]
      simp
    obtain ⟨h1, h2, h3, h4⟩ := ih (processCriterion [] correct st c)
      (fun d hd => hmax d (by simp [hd]))
    rw [List.foldl_cons]
    refine ⟨by rw [h1, hstep], ?_, ?_, ?_⟩
    · rw [h2, hstep]
      simp
    · rw [h3, hstep]
      simp
    · intro d hd
      rcases h4 d hd with hd' | hd'
      · rw [hstep] at hd'
        simp only [List.mem_append, List.mem_singleton] at hd'
        rcases hd' with hd' | hd'
        · exact Or.inl hd'
        · right
          rw [hd']
      · exact Or.inr hd'

/-- C9: grading an empty student element list yields, for every rubric
criterion, a zero `earned` breakdown row, `correctCount` 0, and a missing
list holding the classifier's entry for every correct-answer item of that
category (and hence a zero total), provided the rubric's `maxPoints` are
nonnegative. -/
theorem calculateGrades_empty_student (correct : List Element) (rubric : Rubric)
    (hmax : ∀ c ∈ rubric.criteria, 0 ≤ c.maxPoints) :
    (∀ row ∈ (calculateGrades [] correct rubric).breakdown, row.earned = 0) ∧
    (∀ d ∈ (calculateGrades [] correct rubric).debugInfo,
      d.2.correctCount = 0) ∧
    (calculateGrades [] correct rubric).missingElements =
      rubric.criteria.map (fun c => (c.category, missingAllFor correct c)) ∧
    (calculateGrades [] correct rubric).totalScore = 0 := by
  obtain ⟨h1, h2, h3, h4⟩ := emptyStudentFold correct rubric.criteria
    ⟨0, [], [], [], [], [], [], []⟩ hmax
  have h1' : (calculateGradesState [] correct rubric).totalScore = 0 := by
    simpa using h1
  have h2' : (calculateGradesState [] correct rubric).breakdown =
      rubric.criteria.map (fun c => ⟨c.category, 0, c.maxPoints, ""⟩) := by
    simpa using h2
  have h3' : (calculateGradesState [] correct rubric).missingElements =
      rubric.criteria.map (fun c => (c.category, missingAllFor correct c)) := by
    simpa using h3
  refine ⟨?_, ?_, ?_, ?_⟩
  · intro row hrow
    have hrow' : row ∈ (calculateGradesState [] correct rubric).breakdown := hrow
    rw [h2'] at hrow'
    simp only [List.mem_map] at hrow'
    obtain ⟨c, _, rfl⟩ := hrow'
    rfl
  · intro d hd
    have hd' : d ∈ (calculateGradesState [] correct rubric).debugInfo := hd
    rcases h4 d hd' with hd'' | hd''
    · simp at hd''
    · exact hd''
  · exact h3'
  · show round2 (calculateGradesState [] correct rubric).totalScore = 0
    rw [h1']
    simp [round2]

/-- C9 witness: the empty-student theorem applied to a concrete rubric and
correct answer. -/
theorem calculateGrades_empty_student_witness :
    (∀ c ∈ twoPointEntityRubric.criteria, 0 ≤ c.maxPoints) ∧
    ((∀ row ∈ (calculateGrades [] [customerEntity] twoPointEntityRubric).breakdown,
        row.earned = 0) ∧
      (∀ d ∈ (calculateGrades [] [customerEntity] twoPointEntityRubric).debugInfo,
        d.2.correctCount = 0) ∧
      (calculateGrades [] [customerEntity] twoPointEntityRubric).missingElements =
        twoPointEntityRubric.criteria.map
          (fun c => (c.category, missingAllFor [customerEntity] c)) ∧
      (calculateGrades [] [customerEntity] twoPointEntityRubric).totalScore = 0) :=
  ⟨by
    intro c hc
    simp only [twoPointEntityRubric, List.mem_singleton] at hc
    subst hc
    norm_num,
   calculateGrades_empty_student [customerEntity] twoPointEntityRubric
    (by
      intro c hc
      simp only [twoPointEntityRubric, List.mem_singleton] at hc
      subst hc
      norm_num)⟩

theorem entityFold_partition (ses : List Element) :
    ∀ (targets : List Element) (init : CatAcc),
      (targets.foldl (entityStep ses) init).correctCount +
        (targets.foldl (entityStep ses) init).missing.length +
        (targets.foldl (entityStep ses) init).incorrect.length =
      init.correctCount + init.missing.length + init.incorrect.length +
        targets.length := by
  intro targets
  induction targets with
  | nil => intro init; simp
  | cons t ts ih =>
    intro init
    rw [List.foldl_cons, ih]
    unfold entityStep
    split
    · split <;>
        (simp only [List.length_append, List.length_cons, List.length_nil]; omega)
    · simp only [List.length_append, List.length_cons, List.length_nil]
      omega

/-- C3 counterexample: a student entity (Ghost, id s2) that no correct
entity matches is not consumed, yet the Entities incorrect list stays
empty: the claimed extras reporting does not happen. -/
theorem entity_extras_missing_from_incorrect :
    (calculateGrades ghostStudent [customerEntity]
        tenPointEntityRubric).incorrectElements = [("Entities", [])] ∧
    (calculateGradesState ghostStudent [customerEntity]
        tenPointEntityRubric).matchedStudentIds = ["s1"] ∧
    ghostStudent.filter (fun e => e.type == "entity") =
      ghostStudent ∧
    ¬ "s2" ∈ (calculateGradesState ghostStudent [customerEntity]
        tenPointEntityRubric).matchedStudentIds := by
  refine ⟨by decide, by decide, by decide, by decide⟩

/-- C3 (amended): the Entity Classifier reports no extras: each correct
target entity contributes exactly one of correct/missing/incorrect, so
`correctCount + |missing| + |incorrect|` equals the number of correct
target entities, leaving no room for entries about unconsumed student
entities (extras are reported only in the relationship branch). -/
theorem entity_classifier_no_extras (studentElements correctElements : List Element)
    (st : GradeState) (c : Criterion)
    (hcat : categoryOf (lowerStr c.category) = CategoryKind.entity) :
    (critAccEc studentElements correctElements st c).1.correctCount +
      (critAccEc studentElements correctElements st c).1.missing.length +
      (critAccEc studentElements correctElements st c).1.incorrect.length =
    (filterElementsByContext correctElements "entity" (lowerStr c.category)).length := by
  simp only [critAccEc, hcat]
  rw [entityFold_partition]
  simp

/-- C3 witness: the no-extras partition applied to the Ghost run, where the
single correct entity is matched and nothing else is recorded. -/
theorem entity_classifier_no_extras_witness :
    categoryOf (lowerStr "Entities") = CategoryKind.entity ∧
    (critAccEc ghostStudent [customerEntity]
        ⟨0, [], [], [], [], [], [], []⟩ ⟨"Entities", 10, "All entities identified"⟩).1.correctCount +
      (critAccEc ghostStudent [customerEntity]
        ⟨0, [], [], [], [], [], [], []⟩ ⟨"Entities", 10, "All entities identified"⟩).1.missing.length +
      (critAccEc ghostStudent [customerEntity]
        ⟨0, [], [], [], [], [], [], []⟩ ⟨"Entities", 10, "All entities identified"⟩).1.incorrect.length =
    (filterElementsByContext [customerEntity] "entity" (lowerStr "Entities")).length :=
  ⟨by decide,
   entity_classifier_no_extras ghostStudent [customerEntity]
    ⟨0, [], [], [], [], [], [], []⟩ ⟨"Entities", 10, "All entities identified"⟩
    (by decide)⟩

theorem extrasFold_incorrect (rels : List Element) :
    ∀ acc : CatAcc,
      (rels.foldl extraRelationshipStep acc).incorrect =
        acc.incorrect ++
          (rels.filter (fun sr => !(acc.matchedIds.contains sr.id))).map
            (fun sr => "Extra relationship: " ++ sr.name) := by
  induction rels with
  | nil => intro acc; simp
  | cons r rs ih =>
    intro acc
    rw [List.foldl_cons]
    by_cases hr : acc.matchedIds.contains r.id
    · have hstep : extraRelationshipStep acc r = acc := by
        unfold extraRelationshipStep
        rw [if_pos hr]
      have hr' : r.id ∈ acc.matchedIds := by simpa using hr
      rw [hstep, ih]
      simp [List.filter_cons, hr']
    · have hstep : extraRelationshipStep acc r =
          { acc with incorrect := acc.incorrect ++
            ["Extra relationship: " ++ r.name] } := by
        unfold extraRelationshipStep
        rw [if_neg hr]
      have hr' : ¬ r.id ∈ acc.matchedIds := by simpa using hr
      rw [hstep, ih]
      simp [List.filter_cons, hr']

/-- C4: a student relationship that the endpoint `find` returns with a
different `subType` than the correct one earns no credit, appends exactly
the incorrect-type diamond message, is marked consumed, and the extras
pass afterwards never lists a relationship whose id was consumed. -/
theorem relationship_wrong_subtype_consumed (studentRels : List Element)
    (acc : CatAcc) (cr m : Element)
    (hfind : studentRels.find? (relMatchPred acc.entityMap cr) = some m)
    (hsub : m.subType ≠ cr.subType) :
    (relationshipStep studentRels acc cr).correctCount = acc.correctCount ∧
    (relationshipStep studentRels acc cr).incorrect =
      acc.incorrect ++ [cr.name ++ " (Incorrect Type: You used " ++
        sq m.subType ++ " diamond, expected " ++ sq cr.subType ++ ")"] ∧
    (relationshipStep studentRels acc cr).matchedIds = m.id :: acc.matchedIds ∧
    (∀ rels : List Element,
      (rels.foldl extraRelationshipStep (relationshipStep studentRels acc cr)).incorrect =
        (relationshipStep studentRels acc cr).incorrect ++
          (rels.filter (fun sr =>
            !((m.id :: acc.matchedIds).contains sr.id))).map
            (fun sr => "Extra relationship: " ++ sr.name)) ∧
    (∀ (rels : List Element) (sr : Element), sr.id = m.id →
      sr ∉ rels.filter (fun sr => !((m.id :: acc.matchedIds).contains sr.id))) := by
  have hstep : relationshipStep studentRels acc cr =
      { acc with
        incorrect := acc.incorrect ++ [cr.name ++ " (Incorrect Type: You used " ++
          sq m.subType ++ " diamond, expected " ++ sq cr.subType ++ ")"],
        matchedIds := m.id :: acc.matchedIds } := by
    unfold relationshipStep
    rw [hfind]
    simp only [if_pos hsub]
  refine ⟨by rw [hstep], by rw [hstep], by rw [hstep], ?_, ?_⟩
  · intro rels
    rw [extrasFold_incorrect, hstep]
  · intro rels sr hsr
    intro hmem
    rw [List.mem_filter] at hmem
    have := hmem.2
    simp [hsr] at this

/-- C4 witness: the Enrolls strong-vs-weak scenario, with the consumed
student relationship excluded from the extras list. -/
theorem relationship_wrong_subtype_consumed_witness :
    [enrollsStudent].find? (relMatchPred [] enrollsCorrect) = some enrollsStudent ∧
    enrollsStudent.subType ≠ enrollsCorrect.subType ∧
    (relationshipStep [enrollsStudent] ⟨0, [], [], [], [], []⟩
        enrollsCorrect).correctCount = 0 ∧
    (relationshipStep [enrollsStudent] ⟨0, [], [], [], [], []⟩
        enrollsCorrect).incorrect =
      ["Enrolls (Incorrect Type: You used " ++ sq "weak" ++
        " diamond, expected " ++ sq "strong" ++ ")"] ∧
    (relationshipStep [enrollsStudent] ⟨0, [], [], [], [], []⟩
        enrollsCorrect).matchedIds = ["sr1"] ∧
    enrollsStudent ∉ [enrollsStudent].filter
      (fun sr => !((["sr1"] : List String).contains sr.id)) := by
  have h := relationship_wrong_subtype_consumed [enrollsStudent]
    ⟨0, [], [], [], [], []⟩ enrollsCorrect enrollsStudent (by decide) (by decide)
  exact ⟨by decide, by decide, h.1, h.2.1, h.2.2.1,
    h.2.2.2.2 [enrollsStudent] enrollsStudent (by decide)⟩

theorem checkComp_count (acc : CatAcc) (ok : Bool) (okItem badMsg : String) :
    (checkComp acc ok okItem badMsg).correctCount +
      (checkComp acc ok okItem badMsg).incorrect.length =
    acc.correctCount + acc.incorrect.length + 1 := by
  cases ok <;> simp [checkComp] <;> omega

/-- C5: `useMinMax` is exactly the test `expectedCount / relationshipCount
≥ 3.5` (for a positive relationship count); 8 declared items over 2
relationships selects COMPONENT mode and 4 over 2 selects ENDPOINT mode;
and for every matched relationship the cardinality branch issues exactly 4
verdicts (correct or incorrect) in COMPONENT mode and exactly 2 in
ENDPOINT mode. -/
theorem cardinality_mode_selection :
    (∀ ec rc : ℕ, 0 < rc →
      (useMinMax ec rc = true ↔ (7 : ℚ) / 2 ≤ (ec : ℚ) / (rc : ℚ))) ∧
    useMinMax 8 2 = true ∧
    useMinMax 4 2 = false ∧
    (∀ (studentRels : List Element) (acc : CatAcc) (cr sr : Element),
      studentRels.find? (cardMatchPred acc.entityMap cr) = some sr →
      ((cardinalityStep studentRels true acc cr).correctCount +
          (cardinalityStep studentRels true acc cr).incorrect.length =
        acc.correctCount + acc.incorrect.length + 4) ∧
      ((cardinalityStep studentRels false acc cr).correctCount +
          (cardinalityStep studentRels false acc cr).incorrect.length =
        acc.correctCount + acc.incorrect.length + 2)) := by
  refine ⟨?_, ?_, ?_, ?_⟩
  · intro ec rc hrc
    unfold useMinMax
    rw [if_neg hrc.ne']
    simp
  · unfold useMinMax
    norm_num
  · unfold useMinMax
    norm_num
  · intro studentRels acc cr sr hfind
    constructor
    · unfold cardinalityStep
      simp only [hfind, eq_self_iff_true, if_true]
      rw [checkComp_count, checkComp_count, checkComp_count, checkComp_count]
    · unfold cardinalityStep
      simp only [hfind, Bool.false_eq_true, if_false]
      rw [checkComp_count, checkComp_count]

/-- C5 witness: the mode test and verdict counts at the boundary inputs of
the claim (8 and 4 declared items over 2 relationships; a concrete matched
relationship in both modes). -/
theorem cardinality_mode_selection_witness :
    (0 < 2 ∧ (useMinMax 8 2 = true ↔ (7 : ℚ) / 2 ≤ (8 : ℚ) / (2 : ℚ))) ∧
    useMinMax 8 2 = true ∧
    useMinMax 4 2 = false ∧
    ((visitsCorrect.find? (cardMatchPred [] visitsRel) =
        some visitsRel) ∧
      ((cardinalityStep visitsCorrect true ⟨0, [], [], [], [], []⟩
          visitsRel).correctCount +
        (cardinalityStep visitsCorrect true ⟨0, [], [], [], [], []⟩
          visitsRel).incorrect.length = 4) ∧
      ((cardinalityStep visitsCorrect false ⟨0, [], [], [], [], []⟩
          visitsRel).correctCount +
        (cardinalityStep visitsCorrect false ⟨0, [], [], [], [], []⟩
          visitsRel).incorrect.length = 2)) := by
  have h := cardinality_mode_selection
  have hfind : visitsCorrect.find? (cardMatchPred [] visitsRel) =
      some visitsRel := by decide
  have hc := h.2.2.2 visitsCorrect ⟨0, [], [], [], [], []⟩
    visitsRel visitsRel hfind
  refine ⟨⟨by norm_num, ?_⟩, h.2.1, h.2.2.1, hfind, by simpa using hc.1,
    by simpa using hc.2⟩
  have := h.1 8 2 (by norm_num)
  simpa using this

theorem useMinMax_eq_nat (ec rc : ℕ) :
    useMinMax ec rc =
      if rc = 0 then decide (0 < ec) else decide (7 * rc ≤ 2 * ec) := by
  unfold useMinMax
  by_cases h : rc = 0
  · simp [h]
  · rw [if_neg h, if_neg h]
    rw [decide_eq_decide]
    have hrc : (0 : ℚ) < (rc : ℚ) := by
      exact_mod_cast Nat.pos_of_ne_zero h
    rw [div_le_div_iff (by norm_num) hrc]
    constructor
    · intro hle
      have h2 : ((7 * rc : ℕ) : ℚ) ≤ ((2 * ec : ℕ) : ℚ) := by
        push_cast
        linarith
      exact_mod_cast h2
    · intro hle
      have h2 : ((7 * rc : ℕ) : ℚ) ≤ ((2 * ec : ℕ) : ℚ) := by exact_mod_cast hle
      push_cast at h2
      linarith

theorem extrasFold_correctCount (rels : List Element) :
    ∀ acc : CatAcc,
      (rels.foldl extraRelationshipStep acc).correctCount = acc.correctCount := by
  induction rels with
  | nil => intro acc; rfl
  | cons r rs ih =>
    intro acc
    rw [List.foldl_cons]
    by_cases hr : acc.matchedIds.contains r.id
    · have hstep : extraRelationshipStep acc r = acc := by
        unfold extraRelationshipStep
        rw [if_pos hr]
      rw [hstep, ih]
    · have hstep : extraRelationshipStep acc r =
          { acc with incorrect := acc.incorrect ++
            ["Extra relationship: " ++ r.name] } := by
        unfold extraRelationshipStep
        rw [if_neg hr]
      rw [hstep, ih]

/-- C6 counterexample: a cardinality criterion with no formula keeps
`expectedCount` 0 and multiplier 1, yet earns 2 of 4 points on a matching
submission — the claim that such a category earns 0 is false. -/
theorem cardinality_no_formula_earns_nonzero :
    findFormula ("Cardinality correctness" : String).data = none ∧
    (calculateGrades visitsCorrect visitsCorrect cardNoFormulaRubric).debugInfo =
      [("Cardinality", ⟨0, 2, 1, [], []⟩)] ∧
    (calculateGrades visitsCorrect visitsCorrect cardNoFormulaRubric).breakdown =
      [⟨"Cardinality", 2, 4, ""⟩] ∧
    ¬ ((2 : ℚ) = 0) := by
  have hcat : categoryOf (lowerStr ("Cardinality" : String)) =
      CategoryKind.cardinality := by decide
  have hfilter : visitsCorrect.filter (fun e => e.type == "relationship") =
      [visitsRel] := by decide
  have hec : extractedCount "Cardinality correctness" = 0 := by decide
  have huse : useMinMax 0 1 = false := by
    rw [useMinMax_eq_nat]
    decide
  have hacc : critAccEc visitsCorrect visitsCorrect
      ⟨0, [], [], [], [], [], [], []⟩ ⟨"Cardinality", 4, "Cardinality correctness"⟩ =
      (⟨2, [], [], ["Visits start", "Visits end"], [], []⟩, 0) := by
    simp only [critAccEc, hcat, hfilter, hec, List.length_cons, List.length_nil,
      zero_add, huse]
    decide
  have hff : findFormula ("Cardinality correctness" : String).data = none := by
    decide
  have hmult : resolvedMultiplier "Cardinality correctness" 4 0 = 1 := by
    unfold resolvedMultiplier extractedMultiplier
    rw [hff]
    norm_num
  have hearned : min (((2 : ℕ) : ℚ) * 1) 4 = 2 := by norm_num
  have hr2 : round2 2 = 2 := by
    unfold round2
    norm_num [round_eq]
  have hstate : calculateGradesState visitsCorrect visitsCorrect
      cardNoFormulaRubric =
      { totalScore := 2
        breakdown := [⟨"Cardinality", 2, 4, ""⟩]
        correctElements := [("Cardinality", ["Visits start", "Visits end"])]
        missingElements := [("Cardinality", [])]
        incorrectElements := [("Cardinality", [])]
        debugInfo := [("Cardinality", ⟨0, 2, 1, [], []⟩)]
        matchedStudentIds := []
        entityMap := [] } := by
    unfold calculateGradesState cardNoFormulaRubric
    rw [List.foldl_cons, List.foldl_nil, processCriterion_eq, hacc]
    unfold finishCriterion
    simp only [hmult, hearned, hr2]
    norm_num
  exact ⟨hff, by rw [show (calculateGrades visitsCorrect visitsCorrect
      cardNoFormulaRubric).debugInfo = _ from congrArg GradeState.debugInfo hstate],
    by rw [show (calculateGrades visitsCorrect visitsCorrect
      cardNoFormulaRubric).breakdown = _ from congrArg GradeState.breakdown hstate],
    by norm_num⟩

/-- C6 (amended): the Rubric Interpreter extracts multiplier 0.5 and
expectedCount 16 from "Cardinality correct: 0.5 x 16"; with no formula and
expectedCount n > 0 the multiplier falls back to maxPoints / n (30 and 15
give 2); with no formula and expectedCount 0 the multiplier stays 1, and
an entity/attribute/relationship category (whose expectedCount is its
target count) then earns 0 — a cardinality category, whose correct count
is not tied to expectedCount, can still earn points
(`cardinality_no_formula_earns_nonzero`). -/
theorem multiplier_resolution :
    extractedMultiplier "Cardinality correct: 0.5 x 16" = 1 / 2 ∧
    extractedCount "Cardinality correct: 0.5 x 16" = 16 ∧
    (∀ (d : String) (maxP : ℚ) (ec : Nat), findFormula d.data = none → 0 < ec →
      resolvedMultiplier d maxP ec = maxP / (ec : ℚ)) ∧
    resolvedMultiplier "Attributes correct" 30 15 = 2 ∧
    (∀ (d : String) (maxP : ℚ), findFormula d.data = none →
      resolvedMultiplier d maxP 0 = 1) ∧
    (∀ (student correct : List Element) (st : GradeState) (c : Criterion),
      findFormula c.description.data = none →
      (categoryOf (lowerStr c.category) = CategoryKind.entity ∨
        categoryOf (lowerStr c.category) = CategoryKind.attributeKey ∨
        categoryOf (lowerStr c.category) = CategoryKind.relationship) →
      (critAccEc student correct st c).2 = 0 →
      0 ≤ c.maxPoints →
      min (((critAccEc student correct st c).1.correctCount : ℚ) *
        resolvedMultiplier c.description c.maxPoints
          (critAccEc student correct st c).2) c.maxPoints = 0) := by
  have hnoformula : ∀ (d : String) (maxP : ℚ), findFormula d.data = none →
      resolvedMultiplier d maxP 0 = 1 := by
    intro d maxP hd
    unfold resolvedMultiplier extractedMultiplier
    rw [hd]
    norm_num
  refine ⟨?_, ?_, ?_, ?_, hnoformula, ?_⟩
  · unfold extractedMultiplier
    rw [show findFormula ("Cardinality correct: 0.5 x 16" : String).data =
      some (['0', '.', '5'], ['1', '6']) from by decide]
    show (parseFloatQ ['0', '.', '5']).getD 0 = 1 / 2
    have hd : (['0', '.', '5'] : List Char).dropWhile Char.isDigit = ['.', '5'] := by
      decide
    have ht1 : (['0', '.', '5'] : List Char).takeWhile Char.isDigit = ['0'] := by
      decide
    have ht2 : (['5'] : List Char).takeWhile Char.isDigit = ['5'] := by decide
    have hn1 : natOfDigits ['0'] = 0 := by decide
    have hn2 : natOfDigits ['5'] = 5 := by decide
    unfold parseFloatQ
    rw [hd]
    simp only [ht1, ht2, hn1, hn2, List.length_cons, List.length_nil]
    norm_num
  · decide
  · intro d maxP ec hd hec
    unfold resolvedMultiplier
    rw [hd]
    simp [hec]
  · unfold resolvedMultiplier
    rw [show findFormula ("Attributes correct" : String).data = none from by decide]
    norm_num
  · intro student correct st c hfm hcat hec hmp
    have hcc : (critAccEc student correct st c).1.correctCount = 0 := by
      have hnf : ((findFormula c.description.data).isSome : Bool) = false := by
        rw [hfm]; rfl
      rcases hcat with hcat | hcat | hcat
      · simp only [critAccEc, hcat, hnf, Bool.false_eq_true, if_false] at hec ⊢
        rw [List.length_eq_zero] at hec
        simp [hec]
      · simp only [critAccEc, hcat, hnf, Bool.false_eq_true, if_false] at hec ⊢
        rw [List.length_eq_zero] at hec
        simp [hec]
      · simp only [critAccEc, hcat, hnf, Bool.false_eq_true, if_false] at hec ⊢
        rw [List.length_eq_zero] at hec
        simp only [hec, List.foldl_nil]
        rw [extrasFold_correctCount]
    rw [hcc]
    simpa using hmp

/-- C6 witness: the resolution rules applied at the claim's concrete inputs
(the 0.5 x 16 description, the 30-point 15-item fallback, and a no-formula
empty-target entity criterion earning 0). -/
theorem multiplier_resolution_witness :
    extractedMultiplier "Cardinality correct: 0.5 x 16" = 1 / 2 ∧
    extractedCount "Cardinality correct: 0.5 x 16" = 16 ∧
    resolvedMultiplier "Attributes correct" 30 15 = 2 ∧
    (findFormula ("All entities" : String).data = none ∧
      resolvedMultiplier "All entities" 5 0 = 1) ∧
    (findFormula ("All entities" : String).data = none ∧
      categoryOf (lowerStr "Entities") = CategoryKind.entity ∧
      (critAccEc [] [] ⟨0, [], [], [], [], [], [], []⟩ ⟨"Entities", 5, "All entities"⟩).2 = 0 ∧
      (0 : ℚ) ≤ 5 ∧
      min (((critAccEc [] [] ⟨0, [], [], [], [], [], [], []⟩
          ⟨"Entities", 5, "All entities"⟩).1.correctCount : ℚ) *
        resolvedMultiplier "All entities" 5
          (critAccEc [] [] ⟨0, [], [], [], [], [], [], []⟩
            ⟨"Entities", 5, "All entities"⟩).2) 5 = 0) :=
  ⟨multiplier_resolution.1, multiplier_resolution.2.1,
   multiplier_resolution.2.2.2.1,
   ⟨by decide, multiplier_resolution.2.2.2.2.1 "All entities" 5 (by decide)⟩,
   ⟨by decide, by decide, by decide, by norm_num,
    multiplier_resolution.2.2.2.2.2 [] [] ⟨0, [], [], [], [], [], [], []⟩
      ⟨"Entities", 5, "All entities"⟩ (by decide) (Or.inl (by decide))
      (by decide) (by norm_num)⟩⟩

/-- C8 counterexample: the rename-tolerant match is counted correct, but
the recorded note reads "(Note: You wrote 'Customers')" with a capital Y —
the note text the claim states, "(Note: you wrote 'Customers')", occurs
nowhere in the recorded item. -/
theorem entity_note_capitalization :
    (calculateGrades customersStudent [customerEntity]
        twoPointEntityRubric).correctElements =
      [("Entities", ["Customer (Note: You wrote " ++ sq "Customers" ++ ")"])] ∧
    ((calculateGrades customersStudent [customerEntity]
        twoPointEntityRubric).debugInfo.map (fun d => (d.1, d.2.correctCount))) =
      [("Entities", 1)] ∧
    containsStr ("Customer (Note: You wrote " ++ sq "Customers" ++ ")")
      ("(Note: you wrote " ++ sq "Customers" ++ ")") = false := by
  refine ⟨by decide, by decide, by decide⟩

/-- C8 (amended): with correct entity Customer (strong) and student entity
Customers (strong), the Entity Classifier counts the item correct (full 2
of 2 points here) and records it as "Customer (Note: You wrote
'Customers')" — the note says "You wrote", capitalized. -/
theorem entity_rename_note :
    (calculateGrades customersStudent [customerEntity]
        twoPointEntityRubric).breakdown = [⟨"Entities", 2, 2, ""⟩] ∧
    (calculateGrades customersStudent [customerEntity]
        twoPointEntityRubric).correctElements =
      [("Entities", ["Customer (Note: You wrote " ++ sq "Customers" ++ ")"])] ∧
    (calculateGrades customersStudent [customerEntity]
        twoPointEntityRubric).missingElements = [("Entities", [])] ∧
    (calculateGrades customersStudent [customerEntity]
        twoPointEntityRubric).incorrectElements = [("Entities", [])] := by
  have hacc : critAccEc customersStudent [customerEntity]
      ⟨0, [], [], [], [], [], [], []⟩ ⟨"Entities", 2, "Entities identified"⟩ =
      (⟨1, [], [], ["Customer (Note: You wrote " ++ sq "Customers" ++ ")"],
        ["s1"], [("Customers", "Customer")]⟩, 1) := by
    decide
  have hff : findFormula ("Entities identified" : String).data = none := by
    decide
  have hmult : resolvedMultiplier "Entities identified" 2 1 = 2 := by
    unfold resolvedMultiplier
    rw [hff]
    norm_num
  have hearned : min (((1 : ℕ) : ℚ) * 2) 2 = 2 := by norm_num
  have hr2 : round2 2 = 2 := by
    unfold round2
    norm_num [round_eq]
  have hstate : calculateGradesState customersStudent [customerEntity]
      twoPointEntityRubric =
      { totalScore := 2
        breakdown := [⟨"Entities", 2, 2, ""⟩]
        correctElements :=
          [("Entities", ["Customer (Note: You wrote " ++ sq "Customers" ++ ")"])]
        missingElements := [("Entities", [])]
        incorrectElements := [("Entities", [])]
        debugInfo := [("Entities", ⟨1, 1, 2, [], []⟩)]
        matchedStudentIds := ["s1"]
        entityMap := [("Customers", "Customer")] } := by
    unfold calculateGradesState twoPointEntityRubric
    rw [List.foldl_cons, List.foldl_nil, processCriterion_eq, hacc]
    unfold finishCriterion
    simp only [hmult, hearned, hr2]
    norm_num
  exact ⟨by rw [show (calculateGrades customersStudent [customerEntity]
      twoPointEntityRubric).breakdown = _ from congrArg GradeState.breakdown hstate],
    by rw [show (calculateGrades customersStudent [customerEntity]
      twoPointEntityRubric).correctElements = _ from
      congrArg GradeState.correctElements hstate],
    by rw [show (calculateGrades customersStudent [customerEntity]
      twoPointEntityRubric).missingElements = _ from
      congrArg GradeState.missingElements hstate],
    by rw [show (calculateGrades customersStudent [customerEntity]
      twoPointEntityRubric).incorrectElements = _ from
      congrArg GradeState.incorrectElements hstate]⟩

/-- C10: a request with `studentElements` and `correctAnswer.elements` but
no `rubricStructured` passes the input validation (which never inspects
the rubric although its 400 message names it), and the handler then fails
inside grading and answers the 500 Auto-grading-failed error, never the
400 Missing-required-data error (which is issued exactly on validation
failure). -/
theorem autograde_missing_rubric_is_500 (se ce : List Element) :
    validAutogradeInput ⟨some se, some ⟨some ce⟩, none⟩ = true ∧
    autogradeHandler ⟨some se, some ⟨some ce⟩, none⟩ =
      .serverError "Auto-grading failed" ∧
    containsStr missingDataMessage "rubricStructured" = true ∧
    (∀ req : AutogradeRequest, validAutogradeInput req = false →
      autogradeHandler req = .badRequest "Missing required data" missingDataMessage) := by
  refine ⟨rfl, rfl, by decide, ?_⟩
  intro req hreq
  unfold autogradeHandler
  rw [hreq]
  rfl

/-- C10 witness: the handler outcomes at a concrete rubric-less request and
at a concrete request that fails validation. -/
theorem autograde_missing_rubric_is_500_witness :
    validAutogradeInput ⟨some [customerEntity], some ⟨some [customerEntity]⟩, none⟩ =
      true ∧
    autogradeHandler ⟨some [customerEntity], some ⟨some [customerEntity]⟩, none⟩ =
      .serverError "Auto-grading failed" ∧
    containsStr missingDataMessage "rubricStructured" = true ∧
    validAutogradeInput ⟨none, none, none⟩ = false ∧
    autogradeHandler ⟨none, none, none⟩ =
      .badRequest "Missing required data" missingDataMessage :=
  ⟨(autograde_missing_rubric_is_500 [customerEntity] [customerEntity]).1,
   (autograde_missing_rubric_is_500 [customerEntity] [customerEntity]).2.1,
   (autograde_missing_rubric_is_500 [customerEntity] [customerEntity]).2.2.1,
   by decide,
   (autograde_missing_rubric_is_500 [customerEntity] [customerEntity]).2.2.2
     ⟨none, none, none⟩ (by decide)⟩

/-- C1 witness: the amended bound theorem applied to a concrete one-entity,
one-criterion run. -/
theorem calculateGrades_score_bounds_witness :
    (∀ row ∈ (calculateGrades [customerEntity] [customerEntity]
        twoPointEntityRubric).breakdown,
      0 ≤ row.earned ∧ row.earned ≤ row.max) ∧
    0 ≤ (calculateGrades [customerEntity] [customerEntity]
        twoPointEntityRubric).totalScore ∧
    (calculateGrades [customerEntity] [customerEntity]
        twoPointEntityRubric).totalScore ≤
      (calculateGrades [customerEntity] [customerEntity]
        twoPointEntityRubric).maxScore :=
  calculateGrades_score_bounds [customerEntity] [customerEntity]
    twoPointEntityRubric
    (by
      intro c hc
      simp only [twoPointEntityRubric, List.mem_singleton] at hc
      subst hc
      exact ⟨200, by norm_num⟩)
    (by norm_num [twoPointEntityRubric])
    (by decide)

end ErdGrader

namespace ErdGrader

theorem areStringsSemanticallySimilar_self (s : String) (h : s ≠ "") :
    areStringsSemanticallySimilar s s = true := by
  unfold areStringsSemanticallySimilar
  rw [if_neg (by simp [h])]
  simp

theorem orDefault_empty_right (v : String) : orDefault v "" = v := by
  unfold orDefault
  split <;> simp_all

theorem lookupOr_of_idMap (em : List (String × String)) (h : IdMap em)
    (k : String) : lookupOr em k = k := by
  unfold lookupOr
  cases hf : em.find? (fun p => p.1 == k) with
  | none => rfl
  | some p =>
    have hp : p ∈ em := List.mem_of_find?_eq_some hf
    have hk : p.1 = k := by
      have := List.find?_some hf
      simpa using this
    have hpp := h p hp
    show (if p.2 = "" then k else p.2) = k
    rw [← hpp, hk]
    split <;> rfl

theorem find?_eq_self {α : Type} (q : α → α → Bool) (ce : α) :
    ∀ L : List α, L.Pairwise (fun a b => q a b = false) → ce ∈ L →
      q ce ce = true → L.find? (fun x => q x ce) = some ce := by
  intro L
  induction L with
  | nil => intro _ hce _; cases hce
  | cons h t ih =>
    intro hPW hce hq
    rcases List.pairwise_cons.mp hPW with ⟨hh, ht⟩
    rcases List.mem_cons.mp hce with rfl | hce'
    · exact List.find?_cons_of_pos _ hq
    · have hneg : q h ce = false := hh ce hce'
      rw [List.find?_cons_of_neg _ (by simp [hneg])]
      exact ih ht hce' hq

theorem filterElementsByContext_sublist (els : List Element) (ty ctx : String) :
    (filterElementsByContext els ty ctx).Sublist
      (els.filter (fun e => e.type == ty)) := by
  simp only [filterElementsByContext]
  split_ifs <;> first
    | exact List.filter_sublist _
    | exact List.Sublist.refl _

theorem bool_or_absorb (a c : Bool) : (a || (c && a)) = a := by
  cases a <;> simp

theorem relMatchPred_of_idMap (em : List (String × String)) (hid : IdMap em)
    (cr sr : Element) : relMatchPred em cr sr = relEndpointsSimilar sr cr := by
  unfold relMatchPred relEndpointsSimilar
  rw [lookupOr_of_idMap em hid, lookupOr_of_idMap em hid]
  exact bool_or_absorb _ _

theorem cardMatchPred_of_idMap (em : List (String × String)) (hid : IdMap em)
    (cr sr : Element) : cardMatchPred em cr sr = relEndpointsSimilar sr cr := by
  unfold cardMatchPred relEndpointsSimilar
  rw [lookupOr_of_idMap em hid, lookupOr_of_idMap em hid]

theorem extrasFold_noop (rels : List Element) :
    ∀ acc : CatAcc, (∀ sr ∈ rels, sr.id ∈ acc.matchedIds) →
      rels.foldl extraRelationshipStep acc = acc := by
  induction rels with
  | nil => intro acc _; rfl
  | cons r rs ih =>
    intro acc hall
    rw [List.foldl_cons]
    have hr : acc.matchedIds.contains r.id = true := by
      have := hall r (by simp)
      simpa using this
    have hstep : extraRelationshipStep acc r = acc := by
      unfold extraRelationshipStep
      rw [if_pos hr]
    rw [hstep]
    exact ih acc (fun sr hsr => hall sr (by simp [hsr]))


theorem str_append_empty (s : String) : s ++ "" = s := by
  cases s with
  | mk data =>
    show String.mk (data ++ []) = String.mk data
    rw [List.append_nil]

theorem entityFold_verbatim (ses : List Element) :
    ∀ (targets : List Element) (init : CatAcc),
      (∀ ce ∈ targets, ses.find?
        (fun se => areStringsSemanticallySimilar se.name ce.name) = some ce) →
      targets.foldl (entityStep ses) init =
        { init with
          correctCount := init.correctCount + targets.length,
          correctItems := init.correctItems ++ targets.map (fun e => e.name),
          matchedIds := (targets.map (fun e => e.id)).reverse ++ init.matchedIds,
          entityMap := (targets.map (fun e => (e.name, e.name))).reverse ++
            init.entityMap } := by
  intro targets
  induction targets with
  | nil => intro init _; simp
  | cons t ts ih =>
    intro init hfind
    rw [List.foldl_cons]
    have hstep : entityStep ses init t =
        { init with
          correctCount := init.correctCount + 1,
          correctItems := init.correctItems ++ [t.name],
          matchedIds := t.id :: init.matchedIds,
          entityMap := (t.name, t.name) :: init.entityMap } := by
      unfold entityStep
      rw [hfind t (by simp)]
      simp
    rw [hstep, ih _ (fun ce hce => hfind ce (by simp [hce]))]
    have hcc : ∀ n : Nat, n + 1 + ts.length = n + (ts.length + 1) := by omega
    simp [List.append_assoc, hcc]

theorem attributeFold_verbatim (sas : List Element) (spec : Bool)
    (em : List (String × String)) :
    ∀ (targets : List Element) (init : CatAcc), init.entityMap = em →
      (∀ ca ∈ targets, sas.find?
        (fun sa => areStringsSemanticallySimilar sa.name ca.name &&
          areStringsSemanticallySimilar (lookupOr em sa.belongsTo) ca.belongsTo) =
          some ca) →
      targets.foldl (attributeStep sas spec) init =
        { init with
          correctCount := init.correctCount + targets.length,
          correctItems := init.correctItems ++ targets.map (fun e => e.name),
          matchedIds := (targets.map (fun e => e.id)).reverse ++ init.matchedIds } := by
  intro targets
  induction targets with
  | nil => intro init _ _; simp
  | cons t ts ih =>
    intro init hem hfind
    rw [List.foldl_cons]
    have hstep : attributeStep sas spec init t =
        { init with
          correctCount := init.correctCount + 1,
          correctItems := init.correctItems ++ [t.name],
          matchedIds := t.id :: init.matchedIds } := by
      unfold attributeStep
      rw [hem, hfind t (by simp)]
      simp [str_append_empty]
    rw [hstep, ih _ (by simp [hstep, hem]) (fun ca hca => hfind ca (by simp [hca]))]
    have hcc : ∀ n : Nat, n + 1 + ts.length = n + (ts.length + 1) := by omega
    simp [List.append_assoc, hcc]

theorem relationshipFold_verbatim (srs : List Element)
    (em : List (String × String)) (hid : IdMap em) :
    ∀ (targets : List Element) (init : CatAcc), init.entityMap = em →
      (∀ cr ∈ targets, srs.find? (fun sr => relEndpointsSimilar sr cr) = some cr) →
      targets.foldl (relationshipStep srs) init =
        { init with
          correctCount := init.correctCount + targets.length,
          correctItems := init.correctItems ++ targets.map (fun e => e.name),
          matchedIds := (targets.map (fun e => e.id)).reverse ++ init.matchedIds } := by
  intro targets
  induction targets with
  | nil => intro init _ _; simp
  | cons t ts ih =>
    intro init hem hfind
    rw [List.foldl_cons]
    have hpred : relMatchPred init.entityMap t = fun sr => relEndpointsSimilar sr t := by
      funext sr
      rw [hem, relMatchPred_of_idMap em hid]
    have hstep : relationshipStep srs init t =
        { init with
          correctCount := init.correctCount + 1,
          correctItems := init.correctItems ++ [t.name],
          matchedIds := t.id :: init.matchedIds } := by
      unfold relationshipStep
      rw [hpred, hfind t (by simp)]
      simp
    rw [hstep, ih _ (by simp [hstep, hem]) (fun cr hcr => hfind cr (by simp [hcr]))]
    have hcc : ∀ n : Nat, n + 1 + ts.length = n + (ts.length + 1) := by omega
    simp [List.append_assoc, hcc]


theorem cardinalityStep_verbatim (srs : List Element) (useMM : Bool)
    (em : List (String × String)) (hid : IdMap em) (acc : CatAcc) (cr : Element)
    (hem : acc.entityMap = em)
    (hfind : srs.find? (fun sr => relEndpointsSimilar sr cr) = some cr)
    (hflip : areStringsSemanticallySimilar cr.from_ cr.to_ = false)
    (hf1 : (split2 (orDefault cr.cardinalityFrom "..")).1 ≠ "")
    (hf2 : (split2 (orDefault cr.cardinalityFrom "..")).2 ≠ "")
    (ht1 : (split2 (orDefault cr.cardinalityTo "..")).1 ≠ "")
    (ht2 : (split2 (orDefault cr.cardinalityTo "..")).2 ≠ "") :
    cardinalityStep srs useMM acc cr =
      { acc with
        correctCount := acc.correctCount + (if useMM then 4 else 2),
        correctItems := acc.correctItems ++
          (if useMM then
            [cr.name ++ " start-min", cr.name ++ " start-max",
             cr.name ++ " end-min", cr.name ++ " end-max"]
          else [cr.name ++ " start", cr.name ++ " end"]) } := by
  have hpred : cardMatchPred acc.entityMap cr =
      fun sr => relEndpointsSimilar sr cr := by
    funext sr
    rw [hem, cardMatchPred_of_idMap em hid]
  have hlook : lookupOr acc.entityMap cr.from_ = cr.from_ := by
    rw [hem, lookupOr_of_idMap em hid]
  have hcfrom : containsStr (orDefault cr.cardinalityFrom "")
      cr.cardinalityFrom = true := by
    rw [orDefault_empty_right]
    exact strIncludes_refl _
  have hcto : containsStr (orDefault cr.cardinalityTo "")
      cr.cardinalityTo = true := by
    rw [orDefault_empty_right]
    exact strIncludes_refl _
  unfold cardinalityStep
  rw [hpred, hfind]
  cases useMM with
  | false =>
    simp only [hlook, hflip, Bool.false_eq_true, if_false, checkComp, hcfrom,
      Bool.true_or, if_true, areStringsSemanticallySimilar_self, hcto]
    simp [List.append_assoc]
  | true =>
    simp only [hlook, hflip, Bool.false_eq_true, if_false, if_true, checkComp,
      areStringsSemanticallySimilar_self _ hf1,
      areStringsSemanticallySimilar_self _ hf2,
      areStringsSemanticallySimilar_self _ ht1,
      areStringsSemanticallySimilar_self _ ht2]
    simp [List.append_assoc]

theorem cardinalityFold_verbatim (srs : List Element) (useMM : Bool)
    (em : List (String × String)) (hid : IdMap em) :
    ∀ (targets : List Element) (init : CatAcc), init.entityMap = em →
      (∀ cr ∈ targets, srs.find? (fun sr => relEndpointsSimilar sr cr) = some cr) →
      (∀ cr ∈ targets, areStringsSemanticallySimilar cr.from_ cr.to_ = false ∧
        (split2 (orDefault cr.cardinalityFrom "..")).1 ≠ "" ∧
        (split2 (orDefault cr.cardinalityFrom "..")).2 ≠ "" ∧
        (split2 (orDefault cr.cardinalityTo "..")).1 ≠ "" ∧
        (split2 (orDefault cr.cardinalityTo "..")).2 ≠ "") →
      targets.foldl (cardinalityStep srs useMM) init =
        { init with
          correctCount := init.correctCount +
            (if useMM then 4 else 2) * targets.length,
          correctItems := init.correctItems ++
            (targets.map (fun cr =>
              if useMM then
                [cr.name ++ " start-min", cr.name ++ " start-max",
                 cr.name ++ " end-min", cr.name ++ " end-max"]
              else [cr.name ++ " start", cr.name ++ " end"])).flatten } := by
  intro targets
  induction targets with
  | nil => intro init _ _ _; simp
  | cons t ts ih =>
    intro init hem hfind hcond
    obtain ⟨hflip, hf1, hf2, ht1, ht2⟩ := hcond t (by simp)
    rw [List.foldl_cons,
      cardinalityStep_verbatim srs useMM em hid init t hem (hfind t (by simp))
        hflip hf1 hf2 ht1 ht2,
      ih _ (by simp [hem]) (fun cr hcr => hfind cr (by simp [hcr]))
        (fun cr hcr => hcond cr (by simp [hcr]))]
    simp only [List.append_assoc]
    cases useMM <;> simp [List.append_assoc] <;> omega


theorem resolvedMultiplier_formula (d : String) (maxP : ℚ) (ec : Nat)
    (hform : (findFormula d.data).isSome = true) :
    resolvedMultiplier d maxP ec = extractedMultiplier d := by
  unfold resolvedMultiplier
  rw [if_neg]
  intro hcond
  rw [Option.isNone_iff_eq_none] at hcond
  rw [hcond.1] at hform
  cases hform

theorem resolvedMultiplier_extractedCount (d : String) (maxP : ℚ) :
    resolvedMultiplier d maxP (extractedCount d) = extractedMultiplier d := by
  cases hf : findFormula d.data with
  | none =>
    unfold resolvedMultiplier extractedCount
    rw [hf]
    simp [hf]
  | some g =>
    exact resolvedMultiplier_formula d maxP _ (by rw [hf]; rfl)

theorem earned_full_noformula (d : String) (maxP : ℚ) (n : Nat)
    (hform : findFormula d.data = none) (hn : 0 < n) :
    min ((n : ℚ) * resolvedMultiplier d maxP n) maxP = maxP := by
  unfold resolvedMultiplier
  rw [hform, if_pos ⟨rfl, hn⟩]
  have hn' : (n : ℚ) ≠ 0 := by
    exact_mod_cast hn.ne'
  rw [mul_comm, div_mul_cancel₀ _ hn', min_self]

theorem earned_full_formula (d : String) (maxP : ℚ) (n ec : Nat)
    (hform : (findFormula d.data).isSome = true)
    (hle : maxP ≤ (n : ℚ) * extractedMultiplier d) :
    min ((n : ℚ) * resolvedMultiplier d maxP ec) maxP = maxP := by
  rw [resolvedMultiplier_formula d maxP ec hform]
  exact min_eq_right hle

theorem finishCriterion_full (st : GradeState) (c : Criterion) (acc : CatAcc)
    (ec : Nat) (hmiss : acc.missing = []) (hinc : acc.incorrect = [])
    (hearned : min ((acc.correctCount : ℚ) *
      resolvedMultiplier c.description c.maxPoints ec) c.maxPoints = c.maxPoints)
    (hcent : ∃ k : ℕ, c.maxPoints = (k : ℚ) / 100) :
    (finishCriterion st c acc ec).breakdown =
      st.breakdown ++ [⟨c.category, c.maxPoints, c.maxPoints, ""⟩] ∧
    (finishCriterion st c acc ec).missingElements =
      st.missingElements ++ [(c.category, [])] ∧
    (finishCriterion st c acc ec).incorrectElements =
      st.incorrectElements ++ [(c.category, [])] ∧
    (finishCriterion st c acc ec).entityMap = acc.entityMap ∧
    (finishCriterion st c acc ec).totalScore = st.totalScore + c.maxPoints := by
  obtain ⟨k, hk⟩ := hcent
  have hround : round2 c.maxPoints = c.maxPoints := by
    rw [hk, round2_cent]
  simp only [finishCriterion]
  rw [hearned]
  refine ⟨?_, ?_, ?_, ?_, ?_⟩
  · simp [hround]
  · simp [hmiss]
  · simp [hinc]
  · trivial
  · trivial


theorem processCriterion_verbatim (correct : List Element) (st : GradeState)
    (c : Criterion) (hsafe : VerbatimSafe correct) (hok : CritOK correct c)
    (hcent : ∃ k : ℕ, c.maxPoints = (k : ℚ) / 100) (hid : IdMap st.entityMap) :
    (processCriterion correct correct st c).breakdown =
      st.breakdown ++ [⟨c.category, c.maxPoints, c.maxPoints, ""⟩] ∧
    (processCriterion correct correct st c).missingElements =
      st.missingElements ++ [(c.category, [])] ∧
    (processCriterion correct correct st c).incorrectElements =
      st.incorrectElements ++ [(c.category, [])] ∧
    IdMap (processCriterion correct correct st c).entityMap ∧
    (processCriterion correct correct st c).totalScore =
      st.totalScore + c.maxPoints := by
  obtain ⟨hname, hrel, hattr, hPWent, hPWattr, hPWrel⟩ := hsafe
  unfold CritOK at hok
  rw [processCriterion_eq]
  cases hcat : categoryOf (lowerStr c.category) with
  | entity =>
    simp only [hcat] at hok
    have hfind : ∀ ce ∈ filterElementsByContext correct "entity" (lowerStr c.category),
        (correct.filter (fun e => e.type == "entity")).find?
          (fun se => areStringsSemanticallySimilar se.name ce.name) = some ce := by
      intro ce hce
      have hceL : ce ∈ correct.filter (fun e => e.type == "entity") :=
        (filterElementsByContext_sublist correct "entity" (lowerStr c.category)).subset hce
      have hcecorrect : ce ∈ correct := (List.mem_filter.mp hceL).1
      exact find?_eq_self (fun a b => areStringsSemanticallySimilar a.name b.name)
        ce _ hPWent hceL
        (areStringsSemanticallySimilar_self _ (hname ce hcecorrect))
    have hfold := entityFold_verbatim (correct.filter (fun e => e.type == "entity"))
      (filterElementsByContext correct "entity" (lowerStr c.category))
      ⟨0, [], [], [], st.matchedStudentIds, st.entityMap⟩ hfind
    have hmiss : (critAccEc correct correct st c).1.missing = [] := by
      simp only [critAccEc, hcat]
      rw [hfold]
    have hinc : (critAccEc correct correct st c).1.incorrect = [] := by
      simp only [critAccEc, hcat]
      rw [hfold]
    have hcc : (critAccEc correct correct st c).1.correctCount =
        (filterElementsByContext correct "entity" (lowerStr c.category)).length := by
      simp only [critAccEc, hcat]
      rw [hfold]
      simp
    have hem : (critAccEc correct correct st c).1.entityMap =
        ((filterElementsByContext correct "entity" (lowerStr c.category)).map
          (fun e => (e.name, e.name))).reverse ++ st.entityMap := by
      simp only [critAccEc, hcat]
      rw [hfold]
    have hidnew : IdMap ((critAccEc correct correct st c).1.entityMap) := by
      rw [hem]
      intro p hp
      rcases List.mem_append.mp hp with hp | hp
      · rw [List.mem_reverse] at hp
        obtain ⟨e, _, rfl⟩ := List.mem_map.mp hp
        rfl
      · exact hid p hp
    have hacc2 : (critAccEc correct correct st c).2 =
        if (findFormula c.description.data).isSome = true then
          extractedCount c.description
        else (filterElementsByContext correct "entity" (lowerStr c.category)).length := by
      simp only [critAccEc, hcat]
    have hearned : min (((critAccEc correct correct st c).1.correctCount : ℚ) *
        resolvedMultiplier c.description c.maxPoints (critAccEc correct correct st c).2)
        c.maxPoints = c.maxPoints := by
      cases hform : findFormula c.description.data with
      | none =>
        have hlen : 0 < (filterElementsByContext correct "entity"
            (lowerStr c.category)).length :=
          List.length_pos.mpr (hok.2 hform)
        have hec : (critAccEc correct correct st c).2 =
            (filterElementsByContext correct "entity" (lowerStr c.category)).length := by
          rw [hacc2]
          simp [hform]
        rw [hcc, hec]
        exact earned_full_noformula c.description c.maxPoints _ hform hlen
      | some g =>
        have hsome : (findFormula c.description.data).isSome = true := by
          rw [hform]
          rfl
        rw [hcc]
        exact earned_full_formula c.description c.maxPoints _ _ hsome (hok.1 hsome)
    obtain ⟨hb, hm, hi, he, hts⟩ := finishCriterion_full st c
      (critAccEc correct correct st c).1 (critAccEc correct correct st c).2
      hmiss hinc hearned hcent
    exact ⟨hb, hm, hi, by rw [he]; exact hidnew, hts⟩
  | attributeKey =>
    simp only [hcat] at hok
    have hfind : ∀ ca ∈ filterElementsByContext correct "attribute" (lowerStr c.category),
        (correct.filter (fun e => e.type == "attribute")).find?
          (fun sa => areStringsSemanticallySimilar sa.name ca.name &&
            areStringsSemanticallySimilar (lookupOr st.entityMap sa.belongsTo)
              ca.belongsTo) = some ca := by
      intro ca hca
      have hcaL : ca ∈ correct.filter (fun e => e.type == "attribute") :=
        (filterElementsByContext_sublist correct "attribute" (lowerStr c.category)).subset hca
      have hcacorrect : ca ∈ correct := (List.mem_filter.mp hcaL).1
      have hcatype : ca.type = "attribute" := by
        have := (List.mem_filter.mp hcaL).2
        simpa using this
      have hpred : (fun sa : Element => areStringsSemanticallySimilar sa.name ca.name &&
          areStringsSemanticallySimilar (lookupOr st.entityMap sa.belongsTo)
            ca.belongsTo) =
          (fun sa : Element => areStringsSemanticallySimilar sa.name ca.name &&
            areStringsSemanticallySimilar sa.belongsTo ca.belongsTo) := by
        funext sa
        rw [lookupOr_of_idMap _ hid]
      rw [hpred]
      exact find?_eq_self
        (fun a b => areStringsSemanticallySimilar a.name b.name &&
          areStringsSemanticallySimilar a.belongsTo b.belongsTo) ca _ hPWattr hcaL
        (by
          show (areStringsSemanticallySimilar ca.name ca.name &&
            areStringsSemanticallySimilar ca.belongsTo ca.belongsTo) = true
          rw [areStringsSemanticallySimilar_self _ (hname ca hcacorrect),
            areStringsSemanticallySimilar_self _ (hattr ca hcacorrect hcatype)]
          rfl)
    have hfold := attributeFold_verbatim (correct.filter (fun e => e.type == "attribute"))
      (containsStr (lowerStr c.category) "primary" ||
        containsStr (lowerStr c.category) "key" ||
        containsStr (lowerStr c.category) "derived" ||
        containsStr (lowerStr c.category) "composite" ||
        containsStr (lowerStr c.category) "multi")
      st.entityMap
      (filterElementsByContext correct "attribute" (lowerStr c.category))
      ⟨0, [], [], [], st.matchedStudentIds, st.entityMap⟩ rfl hfind
    have hmiss : (critAccEc correct correct st c).1.missing = [] := by
      simp only [critAccEc, hcat]
      rw [hfold]
    have hinc : (critAccEc correct correct st c).1.incorrect = [] := by
      simp only [critAccEc, hcat]
      rw [hfold]
    have hcc : (critAccEc correct correct st c).1.correctCount =
        (filterElementsByContext correct "attribute" (lowerStr c.category)).length := by
      simp only [critAccEc, hcat]
      rw [hfold]
      simp
    have hem : (critAccEc correct correct st c).1.entityMap = st.entityMap := by
      simp only [critAccEc, hcat]
      rw [hfold]
    have hacc2 : (critAccEc correct correct st c).2 =
        if (findFormula c.description.data).isSome = true then
          extractedCount c.description
        else (filterElementsByContext correct "attribute" (lowerStr c.category)).length := by
      simp only [critAccEc, hcat]
    have hearned : min (((critAccEc correct correct st c).1.correctCount : ℚ) *
        resolvedMultiplier c.description c.maxPoints (critAccEc correct correct st c).2)
        c.maxPoints = c.maxPoints := by
      cases hform : findFormula c.description.data with
      | none =>
        have hlen : 0 < (filterElementsByContext correct "attribute"
            (lowerStr c.category)).length :=
          List.length_pos.mpr (hok.2 hform)
        have hec : (critAccEc correct correct st c).2 =
            (filterElementsByContext correct "attribute" (lowerStr c.category)).length := by
          rw [hacc2]
          simp [hform]
        rw [hcc, hec]
        exact earned_full_noformula c.description c.maxPoints _ hform hlen
      | some g =>
        have hsome : (findFormula c.description.data).isSome = true := by
          rw [hform]
          rfl
        rw [hcc]
        exact earned_full_formula c.description c.maxPoints _ _ hsome (hok.1 hsome)
    obtain ⟨hb, hm, hi, he, hts⟩ := finishCriterion_full st c
      (critAccEc correct correct st c).1 (critAccEc correct correct st c).2
      hmiss hinc hearned hcent
    refine ⟨hb, hm, hi, ?_, hts⟩
    rw [he, hem]
    exact hid
  | relationship =>
    simp only [hcat] at hok
    obtain ⟨hfilt, hokf, hokn⟩ := hok
    have hselfrel : ∀ cr ∈ correct.filter (fun e => e.type == "relationship"),
        relEndpointsSimilar cr cr = true := by
      intro cr hcr
      have hcrc : cr ∈ correct := (List.mem_filter.mp hcr).1
      have hcrt : cr.type = "relationship" := by
        have := (List.mem_filter.mp hcr).2
        simpa using this
      obtain ⟨hf, ht, _⟩ := hrel cr hcrc hcrt
      unfold relEndpointsSimilar
      rw [areStringsSemanticallySimilar_self _ hf,
        areStringsSemanticallySimilar_self _ ht]
      rfl
    have hfind : ∀ cr ∈ filterElementsByContext correct "relationship" (lowerStr c.category),
        (correct.filter (fun e => e.type == "relationship")).find?
          (fun sr => relEndpointsSimilar sr cr) = some cr := by
      intro cr hcr
      have hcrL : cr ∈ correct.filter (fun e => e.type == "relationship") :=
        (filterElementsByContext_sublist correct "relationship" (lowerStr c.category)).subset hcr
      exact find?_eq_self (fun a b => relEndpointsSimilar a b) cr _ hPWrel hcrL
        (hselfrel cr hcrL)
    have hfold := relationshipFold_verbatim
      (correct.filter (fun e => e.type == "relationship")) st.entityMap hid
      (filterElementsByContext correct "relationship" (lowerStr c.category))
      ⟨0, [], [], [], st.matchedStudentIds, st.entityMap⟩ rfl hfind
    have hextras : (correct.filter (fun e => e.type == "relationship")).foldl
        extraRelationshipStep
        ((filterElementsByContext correct "relationship" (lowerStr c.category)).foldl
          (relationshipStep (correct.filter (fun e => e.type == "relationship")))
          ⟨0, [], [], [], st.matchedStudentIds, st.entityMap⟩) =
        (filterElementsByContext correct "relationship" (lowerStr c.category)).foldl
          (relationshipStep (correct.filter (fun e => e.type == "relationship")))
          ⟨0, [], [], [], st.matchedStudentIds, st.entityMap⟩ := by
      apply extrasFold_noop
      intro sr hsr
      rw [hfold]
      show sr.id ∈ _ ++ _
      rw [List.mem_append, List.mem_reverse]
      left
      rw [← hfilt] at hsr
      exact List.mem_map.mpr ⟨sr, hsr, rfl⟩
    have hmiss : (critAccEc correct correct st c).1.missing = [] := by
      simp only [critAccEc, hcat]
      rw [hextras, hfold]
    have hinc : (critAccEc correct correct st c).1.incorrect = [] := by
      simp only [critAccEc, hcat]
      rw [hextras, hfold]
    have hcc : (critAccEc correct correct st c).1.correctCount =
        (filterElementsByContext correct "relationship" (lowerStr c.category)).length := by
      simp only [critAccEc, hcat]
      rw [hextras, hfold]
      simp
    have hem : (critAccEc correct correct st c).1.entityMap = st.entityMap := by
      simp only [critAccEc, hcat]
      rw [hextras, hfold]
    have hacc2 : (critAccEc correct correct st c).2 =
        if (findFormula c.description.data).isSome = true then
          extractedCount c.description
        else (filterElementsByContext correct "relationship" (lowerStr c.category)).length := by
      simp only [critAccEc, hcat]
    have hearned : min (((critAccEc correct correct st c).1.correctCount : ℚ) *
        resolvedMultiplier c.description c.maxPoints (critAccEc correct correct st c).2)
        c.maxPoints = c.maxPoints := by
      cases hform : findFormula c.description.data with
      | none =>
        have hlen : 0 < (filterElementsByContext correct "relationship"
            (lowerStr c.category)).length := by
          rw [hfilt]
          exact List.length_pos.mpr (hokn hform)
        have hec : (critAccEc correct correct st c).2 =
            (filterElementsByContext correct "relationship" (lowerStr c.category)).length := by
          rw [hacc2]
          simp [hform]
        rw [hcc, hec]
        exact earned_full_noformula c.description c.maxPoints _ hform hlen
      | some g =>
        have hsome : (findFormula c.description.data).isSome = true := by
          rw [hform]
          rfl
        rw [hcc, hfilt]
        exact earned_full_formula c.description c.maxPoints _ _ hsome (hokf hsome)
    obtain ⟨hb, hm, hi, he, hts⟩ := finishCriterion_full st c
      (critAccEc correct correct st c).1 (critAccEc correct correct st c).2
      hmiss hinc hearned hcent
    refine ⟨hb, hm, hi, ?_, hts⟩
    rw [he, hem]
    exact hid
  | cardinality =>
    simp only [hcat] at hok
    have hselfrel : ∀ cr ∈ correct.filter (fun e => e.type == "relationship"),
        relEndpointsSimilar cr cr = true := by
      intro cr hcr
      have hcrc : cr ∈ correct := (List.mem_filter.mp hcr).1
      have hcrt : cr.type = "relationship" := by
        have := (List.mem_filter.mp hcr).2
        simpa using this
      obtain ⟨hf, ht, _⟩ := hrel cr hcrc hcrt
      unfold relEndpointsSimilar
      rw [areStringsSemanticallySimilar_self _ hf,
        areStringsSemanticallySimilar_self _ ht]
      rfl
    have hfind : ∀ cr ∈ correct.filter (fun e => e.type == "relationship"),
        (correct.filter (fun e => e.type == "relationship")).find?
          (fun sr => relEndpointsSimilar sr cr) = some cr := by
      intro cr hcr
      exact find?_eq_self (fun a b => relEndpointsSimilar a b) cr _ hPWrel hcr
        (hselfrel cr hcr)
    have hconds : ∀ cr ∈ correct.filter (fun e => e.type == "relationship"),
        areStringsSemanticallySimilar cr.from_ cr.to_ = false ∧
        (split2 (orDefault cr.cardinalityFrom "..")).1 ≠ "" ∧
        (split2 (orDefault cr.cardinalityFrom "..")).2 ≠ "" ∧
        (split2 (orDefault cr.cardinalityTo "..")).1 ≠ "" ∧
        (split2 (orDefault cr.cardinalityTo "..")).2 ≠ "" := by
      intro cr hcr
      have hcrc : cr ∈ correct := (List.mem_filter.mp hcr).1
      have hcrt : cr.type = "relationship" := by
        have := (List.mem_filter.mp hcr).2
        simpa using this
      obtain ⟨_, _, hflip, h1, h2, h3, h4⟩ := hrel cr hcrc hcrt
      exact ⟨hflip, h1, h2, h3, h4⟩
    have hfold := cardinalityFold_verbatim
      (correct.filter (fun e => e.type == "relationship"))
      (useMinMax (extractedCount c.description)
        (correct.filter (fun e => e.type == "relationship")).length)
      st.entityMap hid
      (correct.filter (fun e => e.type == "relationship"))
      ⟨0, [], [], [], st.matchedStudentIds, st.entityMap⟩ rfl hfind hconds
    have hmiss : (critAccEc correct correct st c).1.missing = [] := by
      simp only [critAccEc, hcat]
      rw [hfold]
    have hinc : (critAccEc correct correct st c).1.incorrect = [] := by
      simp only [critAccEc, hcat]
      rw [hfold]
    have hcc : (critAccEc correct correct st c).1.correctCount =
        (if useMinMax (extractedCount c.description)
            (correct.filter (fun e => e.type == "relationship")).length
          then 4 else 2) *
          (correct.filter (fun e => e.type == "relationship")).length := by
      simp only [critAccEc, hcat]
      rw [hfold]
      simp
    have hem : (critAccEc correct correct st c).1.entityMap = st.entityMap := by
      simp only [critAccEc, hcat]
      rw [hfold]
    have hacc2 : (critAccEc correct correct st c).2 = extractedCount c.description := by
      simp only [critAccEc, hcat]
    have hearned : min (((critAccEc correct correct st c).1.correctCount : ℚ) *
        resolvedMultiplier c.description c.maxPoints (critAccEc correct correct st c).2)
        c.maxPoints = c.maxPoints := by
      rw [hcc, hacc2, resolvedMultiplier_extractedCount]
      exact min_eq_right hok
    obtain ⟨hb, hm, hi, he, hts⟩ := finishCriterion_full st c
      (critAccEc correct correct st c).1 (critAccEc correct correct st c).2
      hmiss hinc hearned hcent
    refine ⟨hb, hm, hi, ?_, hts⟩
    rw [he, hem]
    exact hid
  | other =>
    simp only [hcat] at hok


theorem criteriaFold_verbatim (correct : List Element)
    (hsafe : VerbatimSafe correct) :
    ∀ (crits : List Criterion) (st : GradeState),
      (∀ c ∈ crits, CritOK correct c) →
      (∀ c ∈ crits, ∃ k : ℕ, c.maxPoints = (k : ℚ) / 100) →
      IdMap st.entityMap →
      (crits.foldl (processCriterion correct correct) st).breakdown =
        st.breakdown ++ crits.map
          (fun c => (⟨c.category, c.maxPoints, c.maxPoints, ""⟩ : BreakdownRow)) ∧
      (crits.foldl (processCriterion correct correct) st).missingElements =
        st.missingElements ++ crits.map (fun c => (c.category, ([] : List String))) ∧
      (crits.foldl (processCriterion correct correct) st).incorrectElements =
        st.incorrectElements ++ crits.map (fun c => (c.category, ([] : List String))) ∧
      (crits.foldl (processCriterion correct correct) st).totalScore =
        st.totalScore + (crits.map Criterion.maxPoints).sum
  | [], st, _, _, _ => by simp
  | c :: cs, st, hok, hcent, hid => by
    obtain ⟨hb1, hm1, hi1, hid1, hts1⟩ :=
      processCriterion_verbatim correct st c hsafe (hok c (by simp))
        (hcent c (by simp)) hid
    obtain ⟨hb2, hm2, hi2, hts2⟩ :=
      criteriaFold_verbatim correct hsafe cs
        (processCriterion correct correct st c)
        (fun x hx => hok x (by simp [hx]))
        (fun x hx => hcent x (by simp [hx])) hid1
    simp only [List.foldl_cons, List.map_cons, List.sum_cons]
    refine ⟨?_, ?_, ?_, ?_⟩
    · rw [hb2, hb1]
      simp
    · rw [hm2, hm1]
      simp
    · rw [hi2, hi1]
      simp
    · rw [hts2, hts1]
      ring


/-- C2 counterexample: grading a verbatim copy of a correct answer whose two
relationships connect the same endpoint pair gives the Relationships
category 1 of its 2 points with a nonempty incorrect list: the
endpoint-based find matches the second correct relationship to the first
student relationship, flags a diamond-type mismatch, and the extras pass
then reports the unconsumed duplicate as an extra. -/
theorem verbatim_copy_not_full_marks :
    (calculateGrades sameEndpointsCorrect sameEndpointsCorrect
      relOnlyRubric).breakdown = [⟨"Relationships", 1, 2, ""⟩] ∧
    (calculateGrades sameEndpointsCorrect sameEndpointsCorrect
      relOnlyRubric).incorrectElements =
      [("Relationships",
        ["Advises (Incorrect Type: You used \'strong\' diamond, expected \'weak\')",
         "Extra relationship: Advises"])] ∧
    ¬ ((1 : ℚ) = 2) := by
  have hcat : categoryOf (lowerStr ("Relationships" : String)) =
      CategoryKind.relationship := by decide
  have hacc : critAccEc sameEndpointsCorrect sameEndpointsCorrect
      ⟨0, [], [], [], [], [], [], []⟩
      ⟨"Relationships", 2, "Relationships correct"⟩ =
      (⟨1, [],
        ["Advises (Incorrect Type: You used \'strong\' diamond, expected \'weak\')",
         "Extra relationship: Advises"],
        ["Teaches"], ["r1", "r1"], []⟩, 2) := by
    simp only [critAccEc, hcat]
    decide
  have hff : findFormula ("Relationships correct" : String).data = none := by
    decide
  have hmult : resolvedMultiplier "Relationships correct" 2 2 = 1 := by
    unfold resolvedMultiplier
    rw [if_pos ⟨by rw [hff]; rfl, by norm_num⟩]
    norm_num
  have hearned : min (((1 : ℕ) : ℚ) * 1) 2 = 1 := by norm_num
  have hr2 : round2 1 = 1 := by
    unfold round2
    norm_num [round_eq]
  have hstate : calculateGradesState sameEndpointsCorrect sameEndpointsCorrect
      relOnlyRubric =
      { totalScore := 1
        breakdown := [⟨"Relationships", 1, 2, ""⟩]
        correctElements := [("Relationships", ["Teaches"])]
        missingElements := [("Relationships", [])]
        incorrectElements := [("Relationships",
          ["Advises (Incorrect Type: You used \'strong\' diamond, expected \'weak\')",
           "Extra relationship: Advises"])]
        debugInfo := [("Relationships", ⟨2, 1, 1, [],
          ["Advises (Incorrect Type: You used \'strong\' diamond, expected \'weak\')",
           "Extra relationship: Advises"]⟩)]
        matchedStudentIds := ["r1", "r1"]
        entityMap := [] } := by
    unfold calculateGradesState relOnlyRubric
    rw [List.foldl_cons, List.foldl_nil, processCriterion_eq, hacc]
    unfold finishCriterion
    simp only [hmult, hearned, hr2]
    norm_num
  refine ⟨?_, ?_, by norm_num⟩
  · rw [show (calculateGrades sameEndpointsCorrect sameEndpointsCorrect
      relOnlyRubric).breakdown = _ from congrArg GradeState.breakdown hstate]
  · rw [show (calculateGrades sameEndpointsCorrect sameEndpointsCorrect
      relOnlyRubric).incorrectElements = _ from
        congrArg GradeState.incorrectElements hstate]


/-- C2 (corrected): a verbatim copy of the correct answer earns full marks
in every rubric category, with empty missing and incorrect lists, under
the stated safety conditions: nonempty names, unambiguous (pairwise
fuzzy-distinct) elements per category — two correct relationships over the
same endpoint pair break the claim (`verbatim_copy_not_full_marks`) — and
per-criterion coverage conditions (`CritOK`): any formula multiplier covers
maxPoints over the full correct count, a no-formula criterion has a
nonempty target subset, and a relationship criterion does not filter away
part of the relationships.  Each breakdown row then earns exactly its
maxPoints (assumed an integer number of cents, so `toFixed(2)` is exact),
and the total score is the rounded sum of the criteria maxPoints. -/
theorem calculateGrades_verbatim_full_marks (correct : List Element)
    (rubric : Rubric) (hsafe : VerbatimSafe correct)
    (hok : ∀ c ∈ rubric.criteria, CritOK correct c)
    (hcent : ∀ c ∈ rubric.criteria, ∃ k : ℕ, c.maxPoints = (k : ℚ) / 100) :
    (calculateGrades correct correct rubric).breakdown =
      rubric.criteria.map
        (fun c => (⟨c.category, c.maxPoints, c.maxPoints, ""⟩ : BreakdownRow)) ∧
    (calculateGrades correct correct rubric).missingElements =
      rubric.criteria.map (fun c => (c.category, ([] : List String))) ∧
    (calculateGrades correct correct rubric).incorrectElements =
      rubric.criteria.map (fun c => (c.category, ([] : List String))) ∧
    (calculateGrades correct correct rubric).totalScore =
      round2 (rubric.criteria.map Criterion.maxPoints).sum := by
  obtain ⟨hb, hm, hi, hts⟩ :=
    criteriaFold_verbatim correct hsafe rubric.criteria
      ⟨0, [], [], [], [], [], [], []⟩ hok hcent (by intro p hp; simp at hp)
  refine ⟨?_, ?_, ?_, ?_⟩
  · show (calculateGradesState correct correct rubric).breakdown = _
    unfold calculateGradesState
    rw [hb]
    simp
  · show (calculateGradesState correct correct rubric).missingElements = _
    unfold calculateGradesState
    rw [hm]
    simp
  · show (calculateGradesState correct correct rubric).incorrectElements = _
    unfold calculateGradesState
    rw [hi]
    simp
  · show round2 (calculateGradesState correct correct rubric).totalScore = _
    unfold calculateGradesState
    rw [hts]
    simp


/-- C2 witness: the verbatim full-marks theorem applied to a concrete
correct answer covering all four classifiers and a four-criterion rubric,
one criterion with an explicit formula. -/
theorem calculateGrades_verbatim_full_marks_witness :
    VerbatimSafe verbatimCorrect ∧
    (calculateGrades verbatimCorrect verbatimCorrect verbatimRubric).breakdown =
      verbatimRubric.criteria.map
        (fun c => (⟨c.category, c.maxPoints, c.maxPoints, ""⟩ : BreakdownRow)) ∧
    (calculateGrades verbatimCorrect verbatimCorrect
      verbatimRubric).missingElements =
      verbatimRubric.criteria.map (fun c => (c.category, ([] : List String))) ∧
    (calculateGrades verbatimCorrect verbatimCorrect
      verbatimRubric).incorrectElements =
      verbatimRubric.criteria.map (fun c => (c.category, ([] : List String))) ∧
    (calculateGrades verbatimCorrect verbatimCorrect verbatimRubric).totalScore =
      round2 (verbatimRubric.criteria.map Criterion.maxPoints).sum := by
  have hsafe : VerbatimSafe verbatimCorrect := by
    refine ⟨?_, ?_, ?_, ?_, ?_, ?_⟩ <;> decide
  have hok : ∀ c ∈ verbatimRubric.criteria, CritOK verbatimCorrect c := by
    intro c hc
    simp only [verbatimRubric] at hc
    fin_cases hc
    · have hcat : categoryOf (lowerStr ("Entities" : String)) =
          CategoryKind.entity := by decide
      have hff : findFormula ("All entities correct" : String).data = none := by
        decide
      simp only [CritOK, hcat]
      refine ⟨fun h => ?_, fun _ => ?_⟩
      · rw [hff] at h
        simp at h
      · decide
    · have hcat : categoryOf (lowerStr ("Primary Keys" : String)) =
          CategoryKind.attributeKey := by decide
      have hff : findFormula ("Primary keys underlined" : String).data = none := by
        decide
      simp only [CritOK, hcat]
      refine ⟨fun h => ?_, fun _ => ?_⟩
      · rw [hff] at h
        simp at h
      · decide
    · have hcat : categoryOf (lowerStr ("Relationships" : String)) =
          CategoryKind.relationship := by decide
      have hform : findFormula ("Relationships: 3 x 1" : String).data =
          some (['3'], ['1']) := by decide
      have hmult : extractedMultiplier "Relationships: 3 x 1" = 3 := by
        unfold extractedMultiplier
        rw [hform]
        show (parseFloatQ ['3']).getD 0 = 3
        have hd : (['3'] : List Char).dropWhile Char.isDigit = [] := by decide
        have ht : (['3'] : List Char).takeWhile Char.isDigit = ['3'] := by decide
        have hn : natOfDigits ['3'] = 3 := by decide
        unfold parseFloatQ
        rw [hd]
        simp only [ht, hn]
        norm_num
      have hlen : (verbatimCorrect.filter
          (fun e => e.type == "relationship")).length = 1 := by decide
      simp only [CritOK, hcat]
      refine ⟨by decide, fun _ => ?_, fun h => ?_⟩
      · rw [hlen, hmult]
        norm_num
      · rw [hform] at h
        exact Option.noConfusion h
    · have hcat : categoryOf (lowerStr ("Cardinality" : String)) =
          CategoryKind.cardinality := by decide
      have hff : findFormula ("Cardinality tags" : String).data = none := by
        decide
      have hmult : extractedMultiplier "Cardinality tags" = 1 := by
        unfold extractedMultiplier
        rw [hff]
      have hec : extractedCount "Cardinality tags" = 0 := by decide
      have hlen : (verbatimCorrect.filter
          (fun e => e.type == "relationship")).length = 1 := by decide
      have huse : useMinMax 0 1 = false := by
        rw [useMinMax_eq_nat]
        decide
      simp only [CritOK, hcat]
      rw [hec, hlen, huse, hmult]
      norm_num
  have hcent : ∀ c ∈ verbatimRubric.criteria,
      ∃ k : ℕ, c.maxPoints = (k : ℚ) / 100 := by
    intro c hc
    simp only [verbatimRubric] at hc
    fin_cases hc
    · exact ⟨400, by norm_num⟩
    · exact ⟨200, by norm_num⟩
    · exact ⟨300, by norm_num⟩
    · exact ⟨200, by norm_num⟩
  obtain ⟨hb, hm, hi, hts⟩ :=
    calculateGrades_verbatim_full_marks verbatimCorrect verbatimRubric
      hsafe hok hcent
  exact ⟨hsafe, hb, hm, hi, hts⟩

end ErdGrader
